import Mathlib

/-!
Verification development for the Levelapp conversational-agent evaluation
harness.  The Python sources are shallowly embedded as executable Lean
definitions:

* pure string helpers and the key-point heuristic
  (level_core/evaluators/utils.py);
* the evaluation service dispatch (level_core/evaluators/service.py);
* the conversation simulator (level_core/simluators/service.py and
  level_core/simluators/utils.py);
* the workflow orchestrator (level_core/evaluators/orchestrator.py).

External collaborators (HTTP transport, the judge LLM calls, SHA-256, the
prerequisite verifier probes) are passed in as oracle functions, following
the layering of the source: the embedded code never inspects their
internals.  Machine time is modelled as an integer count of microseconds
(the resolution of Python datetime); JWT timestamps are the corresponding
whole seconds, as produced by PyJWT when it serializes a datetime.
-/

/-! ### Python string primitives

Models of the CPython `str` operations used by the sources, over `List Char`.
`isPySpace` covers the ASCII whitespace class that `str.split()` and
`str.strip()` use (the sources only ever feed ASCII prompts through them).
-/

/-- Whitespace recognizer of Python `str.split()` / `str.strip()`
(ASCII subset). -/
def isPySpace (c : Char) : Bool :=
  c = ' ' || c = '\t' || c = '\n' || c = '\x0d' || c = '\x0b' || c = '\x0c'

/-- Scanner of `splitRuns`: `cur` holds the currently open piece in
reverse; a separator closes the piece (when non-empty), any other
character extends it. -/
def splitRunsGo (sep : Char → Bool) : List Char → List Char → List (List Char)
  | [], cur => if cur = [] then [] else [cur.reverse]
  | c :: rest, cur =>
    if sep c then
      if cur = [] then splitRunsGo sep rest []
      else cur.reverse :: splitRunsGo sep rest []
    else
      splitRunsGo sep rest (c :: cur)

/-- Splits a character list into the maximal runs of non-separator
characters, dropping the separators and empty pieces.  With
`sep := isPySpace` this is Python `str.split()` (no arguments); with
`sep := fun c => !(isWordChar c)` it is
`[t for t in re.split(r"[^A-Za-z0-9_-]+", s) if t]`. -/
def splitRuns (sep : Char → Bool) (l : List Char) : List (List Char) :=
  splitRunsGo sep l []

/-- Python `str.split()` with no arguments. -/
def pySplit (l : List Char) : List (List Char) := splitRuns isPySpace l

/-- Python `str.strip()` with no arguments: drop leading and trailing
whitespace. -/
def pyStrip (l : List Char) : List Char :=
  ((l.dropWhile isPySpace).reverse.dropWhile isPySpace).reverse

/-- Python `" ".join(pieces)`. -/
def joinWithSpace : List (List Char) → List Char
  | [] => []
  | [w] => w
  | w :: v :: ws => w ++ ' ' :: joinWithSpace (v :: ws)

/-- Whitespace normalization as the spec words it: runs of whitespace
collapsed to single spaces, leading and trailing whitespace stripped.
This is `" ".join(t.split())`. -/
def normalize_whitespace (t : String) : String :=
  (joinWithSpace (pySplit t.toList)).asString

/-! ### Key-point heuristic (level_core/evaluators/utils.py, extract_key_point) -/

/-- Sentence-ending punctuation of the regex `[.!?]\s+`. -/
def isSentenceEnd (c : Char) : Bool := c = '.' || c = '!' || c = '?'

/-- True when the list starts with a whitespace character. -/
def startsWithSpace : List Char → Bool
  | [] => false
  | c :: _ => isPySpace c

/-- Model of `re.split(r"[.!?]\s+", s)`: cut at every punctuation character
followed by a whitespace run, removing the whole match.  `acc` holds the
current piece in reverse. -/
def splitSentencesAux : List Char → List Char → List (List Char)
  | [], acc => [acc.reverse]
  | c :: rest, acc =>
    if isSentenceEnd c && startsWithSpace rest then
      acc.reverse :: splitSentencesAux (rest.dropWhile isPySpace) []
    else
      splitSentencesAux rest (c :: acc)
termination_by l _ => l.length
decreasing_by
  · have h := (List.dropWhile_sublist (l := rest) isPySpace).length_le
    simp
    omega
  · simp

/-- Sentence segmentation used by `extract_key_point`. -/
def splitSentences (l : List Char) : List (List Char) := splitSentencesAux l []

/-- The stopword set of `extract_key_point`, as character lists. -/
def stop_words : List (List Char) :=
  ["the", "a", "an", "of", "to", "and", "or", "in", "on", "for", "with",
   "is", "are", "was", "were", "be", "this", "that", "it", "as", "by",
   "at", "from", "your", "you", "i"].map String.toList

/-- Character class of the token regex `[A-Za-z0-9_-]`. -/
def isWordChar (c : Char) : Bool :=
  c.isAlpha || c.isDigit || c = '_' || c = '-'

/-- The stopword / length / first-occurrence filter of `extract_key_point`:
skip a token whose lowercase form is a stopword, shorter than two
characters, or already seen; otherwise keep it and remember its lowercase
form. -/
def dedupTokens : List (List Char) → List (List Char) → List (List Char)
  | [], _ => []
  | t :: rest, seen =>
    let lt := t.map Char.toLower
    if lt ∈ stop_words || lt.length < 2 || lt ∈ seen then
      dedupTokens rest seen
    else
      t :: dedupTokens rest (lt :: seen)

/-- Embedding of `extract_key_point(text, max_words)` from
level_core/evaluators/utils.py.  The source: returns `""` for falsy or
whitespace-only input; normalizes whitespace; returns the normalized text
when it has at most `max_words` whitespace-separated words; otherwise takes
the first non-trivial sentence, tokenizes it, filters stopwords and
duplicates (falling back to the unfiltered tokens when fewer than 4
survive), and joins the first `max_words` tokens. -/
def extract_key_point (text : String) (max_words : Nat) : String :=
  let chars := text.toList
  if chars = [] then ""
  else
    let original := joinWithSpace (pySplit (pyStrip chars))
    if original = [] then ""
    else
      let words := pySplit original
      if words.length ≤ max_words then original.asString
      else
        let sentences := ((splitSentences original).map pyStrip).filter (· ≠ [])
        let candidate := sentences.headD original
        let tokens := splitRuns (fun c => !isWordChar c) candidate
        let filtered := dedupTokens tokens []
        let base_tokens := if 4 ≤ filtered.length then filtered else tokens
        (joinWithSpace (base_tokens.take max_words)).asString

/-! ### Evaluation data model (level_core/evaluators/schemas.py) -/

/-- Result of one judge evaluation.  `metadata` is modelled as an
insertion-ordered string-to-string mapping, which covers every value the
embedded code writes into it (error messages and key points). -/
structure EvaluationResult where
  match_level : Nat
  justification : String
  metadata : List (String × String)
deriving DecidableEq, Repr

/-- Per-provider evaluator configuration, after environment expansion. -/
structure EvaluationConfig where
  api_key : String
  api_url : String
  model_id : String
deriving DecidableEq, Repr

/-- The evaluation service: the provider configurations loaded at
construction time, keyed by provider name in insertion order. -/
structure EvaluationService where
  configs : List (String × EvaluationConfig)

/-- A Python exception escaping `evaluate_response`: either the
`ValueError` raised for an unconfigured provider or the `KeyError`
re-raised by `_select_evaluator` for a configured provider that has no
registered evaluator class. -/
inductive PyError where
  | valueError (msg : String)
  | keyError (msg : String)
deriving DecidableEq, Repr

/-- Replace the value of the first entry with key `k`, or append a new
entry: Python `d[k] = v` on an insertion-ordered mapping. -/
def setEntry : List (String × String) → String → String → List (String × String)
  | [], k, v => [(k, v)]
  | (k', v') :: rest, k, v =>
    if k' = k then (k, v) :: rest else (k', v') :: setEntry rest k v

/-- Python `d.update(kvs)` on an insertion-ordered mapping. -/
def dictUpdate (m : List (String × String)) (kvs : List (String × String)) :
    List (String × String) :=
  kvs.foldl (fun acc kv => setEntry acc kv.1 kv.2) m

/-- Embedding of `EvaluationService.evaluate_response`
(level_core/evaluators/service.py).  `judge` is the oracle for
`evaluator.evaluate(...)` — the retry-wrapped HTTP judge call:
`Except.ok r` models a returned result, `Except.error e` models a raised
exception whose `str(e)` is `e`.  The embedding mirrors the source order:
the unconfigured-provider `ValueError`, then `_select_evaluator` (which
raises `KeyError` when the configured provider is not one of the two
registered evaluator classes `ionos` / `openai`), then the guarded judge
call, then the deterministic key-point post-processing. -/
def evaluate_response (svc : EvaluationService)
    (judge : String → String → String → Option String → Except String EvaluationResult)
    (provider output_text reference_text : String) (user_message : Option String) :
    Except PyError EvaluationResult :=
  if (svc.configs.lookup provider).isNone then
    .error (.valueError ("[evaluate_response] No configuration set for provider: " ++ provider))
  else if provider ≠ "ionos" ∧ provider ≠ "openai" then
    .error (.keyError ("No evaluator defined for provider " ++ provider))
  else
    let result :=
      match judge provider output_text reference_text user_message with
      | .ok r => r
      | .error e => { match_level := 0, justification := "", metadata := [("error", e)] }
    let kp_user :=
      match user_message with
      | some m => if m = "" then "" else extract_key_point m 20
      | none => ""
    let kp_expected := extract_key_point reference_text 20
    let kp_generated := extract_key_point output_text 20
    .ok { result with
          metadata := dictUpdate result.metadata
            [("user_key_point", kp_user),
             ("expected_key_point", kp_expected),
             ("generated_key_point", kp_generated),
             ("key_point_method", "heuristic_v1")] }

/-! ### Conversation simulator (level_core/simluators/service.py, utils.py)

The agent HTTP transport is the oracle `net : String → Option HttpResponse`,
mapping the payload prompt of each POST to either a delivered HTTP response
(of any status) or `none` for a transport-level failure
(`httpx.RequestError`).  The evaluation service used by
`evaluate_interaction` is the oracle
`ev : String → String → String → EvaluationResult`
(provider, output_text, reference_text); it is total, which is the
behaviour of `evaluate_response` once `openai` and `ionos` are both
configured. -/

/-- An HTTP response as seen by the simulator. -/
structure HttpResponse where
  status_code : Nat
  text : String
deriving DecidableEq, Repr

/-- Embedding of `async_request` (level_core/simluators/utils.py): POST the
payload and return the response when `raise_for_status()` passes (a 2xx
status); any `httpx.HTTPStatusError` (non-2xx status) or
`httpx.RequestError` (transport failure) is caught and `None` is
returned. -/
def async_request (net : String → Option HttpResponse) (prompt : String) :
    Option HttpResponse :=
  match net prompt with
  | none => none
  | some r => if 200 ≤ r.status_code ∧ r.status_code < 300 then some r else none

/-- One user turn (level_core/simluators/schemas.py, `Interaction`).
Reference metadata values are kept as strings, which is all the embedded
code ever copies through. -/
structure Interaction where
  id : String
  user_message : String
  reference_reply : String
  interaction_type : String
  reference_metadata : List (String × String)
deriving DecidableEq, Repr

/-- A scenario (level_core/simluators/schemas.py, `BasicConversation`). -/
structure BasicConversation where
  id : String
  interactions : List Interaction
  description : String
  details : List (String × String)
deriving DecidableEq, Repr

/-- The simulator input (level_core/simluators/schemas.py,
`ConversationBatch`). -/
structure ConversationBatch where
  conversations : List BasicConversation
deriving DecidableEq, Repr

/-- The per-turn result dict built by `simulate__interactions`. -/
structure InteractionResult where
  user_message : String
  agent_reply : String
  reference_reply : String
  interaction_type : Option String
  reference_metadata : List (String × String)
  generated_metadata : List (String × String)
  evaluation_results : List (String × EvaluationResult)
deriving DecidableEq, Repr

/-- The failure dict of `simulate__interactions`: built when
`async_request` returned `None` or the delivered status is not 200. -/
def requestFailedResult (interaction : Interaction) : InteractionResult :=
  { user_message := interaction.user_message
    agent_reply := "Request failed"
    reference_reply := interaction.reference_reply
    interaction_type := some interaction.interaction_type
    reference_metadata := interaction.reference_metadata
    generated_metadata := []
    evaluation_results := [] }

/-- Embedding of `ConversationSimulator.evaluate_interaction`: dispatches
the two hard-coded providers `openai` and `ionos` through the evaluation
service (the source awaits both with `asyncio.gather`; the joined mapping
is order-independent and is recorded here in the source's key order). -/
def evaluate_interaction (ev : String → String → String → EvaluationResult)
    (extracted_vla_reply reference_vla_reply : String) :
    List (String × EvaluationResult) :=
  [("openai", ev "openai" extracted_vla_reply reference_vla_reply),
   ("ionos", ev "ionos" extracted_vla_reply reference_vla_reply)]

/-- One iteration of the `for interaction in interactions_sequence` loop of
`simulate__interactions`: POST `{"prompt": user_message}`; when no 200
response arrives, record the failure dict and continue; otherwise record
the response text as `agent_reply` and the evaluation results.  Note the
source passes `interaction.user_message` — not the agent reply — as the
first argument of `evaluate_interaction`. -/
def simulate_interaction_step (net : String → Option HttpResponse)
    (ev : String → String → String → EvaluationResult)
    (interaction : Interaction) : InteractionResult :=
  match async_request net interaction.user_message with
  | none => requestFailedResult interaction
  | some response =>
    if response.status_code = 200 then
      { user_message := interaction.user_message
        agent_reply := response.text
        reference_reply := interaction.reference_reply
        interaction_type := none
        reference_metadata := interaction.reference_metadata
        generated_metadata := []
        evaluation_results :=
          evaluate_interaction ev interaction.user_message interaction.reference_reply }
    else requestFailedResult interaction

/-- Embedding of `ConversationSimulator.simulate__interactions`: the turns
of a scenario are processed strictly in list order, each producing one
result dict. -/
def simulate_interactions (net : String → Option HttpResponse)
    (ev : String → String → String → EvaluationResult)
    (scenario : BasicConversation) : List InteractionResult :=
  scenario.interactions.map (simulate_interaction_step net ev)

/-- Rounding to 3 decimals, `round(x, 3)` over exact rationals.  (Python
rounds halves to even; Mathlib's `round` rounds halves up.  No average in
this development ever lands on a half-thousandth, and the claims settled
here concern which keys are present, so the difference is immaterial.) -/
def round3 (q : ℚ) : ℚ := (round (q * 1000) : ℤ) / 1000

/-- Embedding of `calculate_average` (level_core/simluators/utils.py),
dictionary case: per-key arithmetic mean rounded to 3 decimals, `0.0` for
an empty value list. -/
def calculate_average (data : List (String × List ℚ)) : List (String × ℚ) :=
  data.map (fun kv =>
    (kv.1, if kv.2 ≠ [] then round3 (kv.2.sum / (kv.2.length : ℚ)) else 0))

/-- The per-attempt result dict of `simulate_single_scenario`. -/
structure ScenarioAttemptResult where
  attempt_id : Nat
  conversation_id : String
  interactions : List InteractionResult
  average_scores : List (String × ℚ)
deriving DecidableEq, Repr

/-- The per-scenario result dict of `simulate_single_scenario`. -/
structure ScenarioResult where
  scenario_id : String
  attempts : List ScenarioAttemptResult
  average_scores : List (String × ℚ)
deriving DecidableEq, Repr

/-- The dict returned by `simulate_conversation`. -/
structure BatchResult where
  scenarios : List ScenarioResult
  average_scores : List (String × ℚ)
deriving DecidableEq, Repr

/-- The per-attempt `self.collected_scores` after a sub-run.  The source
resets it to `defaultdict(list)` at the top of every attempt, and the only
code that ever appended match levels to it
(`store_evaluation_results`) is commented out, so it is still the empty
mapping when `calculate_average` reads it. -/
def collected_scores_after_attempt : List (String × List ℚ) := []

/-- The `all_attempts_scores` accumulator after all attempts of a scenario.
It starts as an empty `defaultdict(list)` and the only statement touching
it, `for key in all_attempts_scores: all_attempts_scores[key].append(...)`,
iterates over its own (initially zero) keys, so no key is ever created and
it remains the empty mapping. -/
def all_attempts_scores_final : List (String × List ℚ) := []

/-- Embedding of `ConversationSimulator.simulate_single_scenario`: run
`attempts` sequential sub-runs, each with conversation id
`batch-<attempt+1>`, recording the (empty, see above) per-attempt and
cross-attempt average-score mappings. -/
def simulate_single_scenario (net : String → Option HttpResponse)
    (ev : String → String → String → EvaluationResult)
    (scenario : BasicConversation) (attempts : Nat) : ScenarioResult :=
  { scenario_id := scenario.id
    attempts := (List.range attempts).map (fun attempt =>
      { attempt_id := attempt + 1
        conversation_id := "batch-" ++ toString (attempt + 1)
        interactions := simulate_interactions net ev scenario
        average_scores := calculate_average collected_scores_after_attempt })
    average_scores := calculate_average all_attempts_scores_final }

/-- The `aggregate_scores` mapping of `simulate_conversation`.  The source
collects `scenarios_results.get("averageScores", {})` for each scenario,
but `simulate_single_scenario` stores that mapping under the snake_case
key `"average_scores"`, so every lookup returns the empty default and the
aggregate stays empty. -/
def aggregate_scores_final : List (String × List ℚ) := []

/-- Embedding of `ConversationSimulator.simulate_conversation`: one task
per scenario gathered under a semaphore of capacity `len(conversations)`
(pure fan-out/join here), then the batch-level aggregation described
above. -/
def simulate_conversation (net : String → Option HttpResponse)
    (ev : String → String → String → EvaluationResult)
    (batch : ConversationBatch) (attempts : Nat) : BatchResult :=
  { scenarios :=
      batch.conversations.map (fun s => simulate_single_scenario net ev s attempts)
    average_scores := calculate_average aggregate_scores_final }

/-! ### JSON values and canonical encoding

Seeds are arbitrary JSON values; `canonicalJson` embeds
`json.dumps(seed, sort_keys=True)` with the default separators.  (String
escaping is the identity here; the embedding covers the plain keys and
values the orchestrator claims exercise.) -/

/-- A JSON value (numbers restricted to integers, which is what the
orchestrator seeds carry). -/
inductive Json where
  | null
  | bool (b : Bool)
  | num (n : Int)
  | str (s : String)
  | arr (xs : List Json)
  | obj (kvs : List (String × Json))
deriving Repr

/-- Insertion step of a stable insertion sort. -/
def insertBy (lt : α → α → Bool) (p : α) : List α → List α
  | [] => [p]
  | q :: rest => if lt q p then q :: insertBy lt p rest else p :: q :: rest

/-- Stable insertion sort with a boolean strict order. -/
def sortBy (lt : α → α → Bool) : List α → List α
  | [] => []
  | p :: rest => insertBy lt p (sortBy lt rest)

/-- Embedding of `json.dumps(·, sort_keys=True)` with the default
`", "` / `": "` separators. -/
def canonicalJson : Json → String
  | .null => "null"
  | .bool b => if b then "true" else "false"
  | .num n => toString n
  | .str s => "\"" ++ s ++ "\""
  | .arr xs =>
      "[" ++ String.intercalate ", " (xs.attach.map (fun x => canonicalJson x.1)) ++ "]"
  | .obj kvs =>
      "\x7b" ++ String.intercalate ", "
        ((sortBy (fun a b => decide (a.1.1 < b.1.1)) kvs.attach).map
          (fun kv => "\"" ++ kv.1.1 ++ "\": " ++ canonicalJson kv.1.2)) ++ "\x7d"
decreasing_by
  · have h := List.sizeOf_lt_of_mem x.2
    simp
    omega
  · have h := List.sizeOf_lt_of_mem kv.2
    obtain ⟨⟨k, v⟩, hm⟩ := kv
    simp at h ⊢
    omega

/-- Python `d.get(k)` on a JSON object (`none` elsewhere / when absent). -/
def jsonGet (j : Json) (k : String) : Option Json :=
  match j with
  | .obj kvs => kvs.lookup k
  | _ => none

/-! ### Workflow orchestrator (level_core/evaluators/orchestrator.py)

Machine time is an `Int` count of microseconds (`datetime` resolution);
`60000000` is the rate-limit minute, `300000000` the five-minute token
lifetime.  `jwtTimestamp` is the whole-second Unix timestamp PyJWT encodes
a `datetime` as.  `uuid4()` is modelled by the caller-supplied fresh
identifier of each call; SHA-256 is the injected primitive
`sha256hex16` (its 16-hex-character truncation composed in). -/

/-- The orchestrator error taxonomy. -/
inductive ErrorCode where
  | CONFIG_MISSING
  | RESOURCE_UNAVAILABLE
  | CONNECTIVITY_ERROR
  | PERMISSION_DENIED
  | VALIDATION_ERROR
  | RATE_LIMITED
  | SYSTEM_ERROR
deriving DecidableEq, Repr

/-- One verifier check (orchestration_schemas.py, `CheckResult`). -/
structure CheckResult where
  name : String
  status : String
  detail : Option String
deriving DecidableEq, Repr

/-- A verifier verdict (orchestration_schemas.py, `VerificationResult`). -/
structure VerificationResult where
  ready : Bool
  checks : List CheckResult
  reasons : List String
  codes : List ErrorCode
deriving DecidableEq, Repr

/-- A minted workflow session (orchestration_schemas.py,
`WorkflowSession`); the uuid is the fresh identifier supplied to the call
that minted it. -/
structure WorkflowSession where
  session_id : Nat
  project_id : String
  workflow_type : String
  seed_hash : String
  context : List (String × Json)
  status : String
  created_at : Int
  expires_at : Int

/-- The decoded payload of a launch token:
`{session_id, project_id, workflow_type, exp, nbf, aud}`. -/
structure TokenPayload where
  session_id : String
  project_id : String
  workflow_type : String
  exp : Int
  nbf : Int
  aud : String
deriving DecidableEq, Repr

/-- Model of an HS256 JWT as issued by `jwt.encode(payload, secret,
algorithm="HS256")`: the encoding is deterministic and injective in
`(payload, secret)`, so the token string is identified with that pair;
two tokens are the same string exactly when payload and secret agree. -/
structure JwtToken where
  payload : TokenPayload
  secret : String
deriving DecidableEq, Repr

/-- The response of `prepare_workflow` (orchestration_schemas.py,
`LaunchResponse`). -/
structure LaunchResponse where
  success : Bool
  session_id : Option Nat
  launch_token : Option JwtToken
  redirect_path : Option String
  verification : Option VerificationResult

/-- Mutable orchestrator state: the session store keyed by
`str(session_id)` and the per-project rate-limit buckets, both
insertion-ordered mappings. -/
structure OrchestratorState where
  sessions : List (String × WorkflowSession)
  rate_limiter : List (String × List Int)

/-- Orchestrator construction-time configuration: the environment-derived
tunables and the SHA-256 primitive
(`hashlib.sha256(s.encode()).hexdigest()[:16]`). -/
structure OrchestratorConfig where
  max_requests_per_minute : Nat
  session_ttl_minutes : Int
  jwt_secret : String
  sha256hex16 : String → String

/-- Python `m[k] = v` on an insertion-ordered mapping with arbitrary value
type (replace the first entry with key `k`, or append). -/
def setKey (m : List (String × α)) (k : String) (v : α) : List (String × α) :=
  match m with
  | [] => [(k, v)]
  | (k', v') :: rest => if k' = k then (k, v) :: rest else (k', v') :: setKey rest k v

/-- Python `m.values()`. -/
def valuesOf (m : List (String × α)) : List α := m.map (·.2)

/-- The rate-limit bucket of a project (`self.rate_limiter[project_id]`,
defaulting to the empty list). -/
def bucketOf (st : OrchestratorState) (project_id : String) : List Int :=
  (st.rate_limiter.lookup project_id).getD []

/-- Embedding of `OrchestratorService._generate_seed_hash`. -/
def generate_seed_hash (cfg : OrchestratorConfig) (seed : Json) : String :=
  cfg.sha256hex16 (canonicalJson seed)

/-- Embedding of `OrchestratorService._check_rate_limit` at time `now`:
prune the project's bucket to the timestamps strictly inside the rolling
60-second window, store the pruned bucket, refuse when it already holds at
least `max_requests_per_minute` entries, and otherwise record `now` and
admit. -/
def check_rate_limit (cfg : OrchestratorConfig) (st : OrchestratorState)
    (project_id : String) (now : Int) : Bool × OrchestratorState :=
  let cleaned := (bucketOf st project_id).filter (fun ts => now - 60000000 < ts)
  if cfg.max_requests_per_minute ≤ cleaned.length then
    (false, { st with rate_limiter := setKey st.rate_limiter project_id cleaned })
  else
    (true, { st with rate_limiter := setKey st.rate_limiter project_id (cleaned ++ [now]) })

/-- The matching predicate of `_find_existing_session`: same project, same
workflow type, same seed hash, and not yet expired (strictly). -/
def sessionMatches (project_id workflow_type seed_hash : String) (now : Int)
    (s : WorkflowSession) : Bool :=
  (s.project_id == project_id) && (s.workflow_type == workflow_type) &&
    (s.seed_hash == seed_hash) && decide (now < s.expires_at)

/-- Embedding of `OrchestratorService._find_existing_session`: the first
stored session (in insertion order) matching project, workflow type and
seed hash whose `expires_at` is strictly in the future. -/
def find_existing_session (st : OrchestratorState)
    (project_id workflow_type seed_hash : String) (now : Int) : Option WorkflowSession :=
  (valuesOf st.sessions).find? (sessionMatches project_id workflow_type seed_hash now)

/-- PyJWT serializes a datetime claim as its whole-second Unix timestamp
(floor division of the microsecond clock). -/
def jwtTimestamp (t : Int) : Int := t / 1000000

/-- Embedding of `OrchestratorService._generate_launch_token`: an HS256
token over the process secret whose payload carries the session id, the
project, the workflow type, `exp = now + 5 minutes`, `nbf = now`, and the
audience string `"levelapp-orchestrator"`. -/
def generate_launch_token (cfg : OrchestratorConfig) (session_id : Nat)
    (project_id workflow_type : String) (now : Int) : JwtToken :=
  { payload :=
      { session_id := toString session_id
        project_id := project_id
        workflow_type := workflow_type
        exp := jwtTimestamp (now + 300000000)
        nbf := jwtTimestamp now
        aud := "levelapp-orchestrator" }
    secret := cfg.jwt_secret }

/-- Embedding of `OrchestratorService._get_redirect_path` composed with the
`.format(project_id=...)` interpolation applied by `prepare_workflow`. -/
def get_redirect_path (workflow_type : String) (session_id : Nat)
    (project_id : String) : String :=
  match workflow_type with
  | "generation" =>
      "/dashboard/projects/" ++ project_id ++ "/evaluate?session_id=" ++ toString session_id
  | "rag" =>
      "/dashboard/projects/" ++ project_id ++ "/rag-workflow?session_id=" ++ toString session_id
  | "extraction" =>
      "/dashboard/projects/" ++ project_id ++ "/extraction-workflow?session_id=" ++ toString session_id
  | _ => "/dashboard/projects/" ++ project_id

/-- Embedding of `OrchestratorService._initialize_workflow`: build the
workflow-specific context from the seed, mint a session with the supplied
fresh uuid, TTL `session_ttl_minutes`, status `ready`, and store it under
`str(session_id)`. -/
def initialize_workflow (cfg : OrchestratorConfig) (st : OrchestratorState)
    (project_id workflow_type : String) (seed : Json) (seed_hash : String)
    (now : Int) (freshId : Nat) : WorkflowSession × OrchestratorState :=
  let context : List (String × Json) :=
    match workflow_type with
    | "generation" =>
        [("endpoint_url", (jsonGet seed "endpoint").getD Json.null),
         ("available_models", Json.arr
            [.str "meta-llama/Llama-3.3-70B-Instruct",
             .str "meta-llama/Meta-Llama-3.1-8B-Instruct"])]
    | "rag" =>
        [("source_url", (jsonGet seed "source_url").getD Json.null),
         ("chunk_size", (jsonGet seed "chunk_size").getD (Json.num 512))]
    | "extraction" =>
        [("document_ids", (jsonGet seed "document_ids").getD (Json.arr [])),
         ("schema_id", (jsonGet seed "schema_id").getD Json.null)]
    | _ => []
  let session : WorkflowSession :=
    { session_id := freshId
      project_id := project_id
      workflow_type := workflow_type
      seed_hash := seed_hash
      context := context
      status := "ready"
      created_at := now
      expires_at := now + cfg.session_ttl_minutes * 60000000 }
  (session, { st with sessions := setKey st.sessions (toString freshId) session })

/-- The rejection returned when `_check_rate_limit` refuses a call. -/
def rate_limited_response : LaunchResponse :=
  { success := false
    session_id := none
    launch_token := none
    redirect_path := none
    verification := some
      { ready := false
        checks := [{ name := "rate_limit", status := "fail", detail := some "Too many requests" }]
        reasons := ["Rate limit exceeded"]
        codes := [.RATE_LIMITED] } }

/-- Externally observable phases of one `prepare_workflow` call, recorded
so that re-verification and re-initialization are provable non-events. -/
inductive OrchestrationStep where
  | verification_run
  | session_init
deriving DecidableEq, Repr

/-- Embedding of `OrchestratorService.prepare_workflow`: rate limiting,
then the idempotency lookup (reusing a live matching session and issuing a
fresh token without re-verification or re-initialization), then
verification through the `verify` oracle (the `PrerequisiteVerifier`,
whose verdict depends on external probes), then light session
initialization and token issuance.  `now` is the wall clock of the call,
`freshId` the uuid minted if a session is created. -/
def prepare_workflow (cfg : OrchestratorConfig)
    (verify : String → String → Json → VerificationResult)
    (st : OrchestratorState) (project_id workflow_type : String) (seed : Json)
    (now : Int) (freshId : Nat) :
    LaunchResponse × OrchestratorState × List OrchestrationStep :=
  let rl := check_rate_limit cfg st project_id now
  if rl.1 = false then
    (rate_limited_response, rl.2, [])
  else
    let seed_hash := generate_seed_hash cfg seed
    match find_existing_session rl.2 project_id workflow_type seed_hash now with
    | some existing_session =>
      let launch_token :=
        generate_launch_token cfg existing_session.session_id project_id workflow_type now
      ({ success := true
         session_id := some existing_session.session_id
         launch_token := some launch_token
         redirect_path :=
           some (get_redirect_path workflow_type existing_session.session_id project_id)
         verification := none }, rl.2, [])
    | none =>
      let verification := verify project_id workflow_type seed
      if verification.ready = false then
        ({ success := false
           session_id := none
           launch_token := none
           redirect_path := none
           verification := some verification }, rl.2, [.verification_run])
      else
        let init := initialize_workflow cfg rl.2 project_id workflow_type seed seed_hash now freshId
        let launch_token :=
          generate_launch_token cfg init.1.session_id project_id workflow_type now
        ({ success := true
           session_id := some init.1.session_id
           launch_token := some launch_token
           redirect_path := some (get_redirect_path workflow_type init.1.session_id project_id)
           verification := none }, init.2, [.verification_run, .session_init])

/-- One call of a `prepare_workflow` call sequence against a fixed
project. -/
structure PrepCall where
  workflow_type : String
  seed : Json
  at_time : Int
  fresh_id : Nat

/-- Run a sequence of `prepare_workflow` calls for one project, threading
the orchestrator state and collecting the responses in call order. -/
def runPrepareCalls (cfg : OrchestratorConfig)
    (verify : String → String → Json → VerificationResult) (project_id : String) :
    List PrepCall → OrchestratorState → List LaunchResponse × OrchestratorState
  | [], st => ([], st)
  | c :: rest, st =>
    let out := prepare_workflow cfg verify st project_id c.workflow_type c.seed c.at_time c.fresh_id
    let next := runPrepareCalls cfg verify project_id rest out.2.1
    (out.1 :: next.1, next.2)

/-- A response that reports the rate-limit rejection. -/
def isRateLimited (r : LaunchResponse) : Prop :=
  r.success = false ∧ ∃ v, r.verification = some v ∧ ErrorCode.RATE_LIMITED ∈ v.codes

/-! ### Concrete fixtures

Closed instances used to evaluate the embedded operations at specific
inputs.  The hash primitive is instantiated with a constant function: no
settled claim relies on any property of SHA-256 beyond determinism, which
every function has. -/

/-- A two-turn interaction fixture. -/
def fxInteraction : Interaction :=
  { id := "i1", user_message := "Hello", reference_reply := "Hi there",
    interaction_type := "opening", reference_metadata := [] }

/-- A one-interaction scenario fixture. -/
def fxScenario : BasicConversation :=
  { id := "s1", interactions := [fxInteraction], description := "greeting",
    details := [] }

/-- A one-scenario batch fixture. -/
def fxBatch : ConversationBatch := { conversations := [fxScenario] }

/-- An agent that answers every prompt with 200 / `"Hi"`. -/
def fxNet : String → Option HttpResponse :=
  fun _ => some { status_code := 200, text := "Hi" }

/-- A judge oracle that scores 5 exactly when the evaluated output text is
the string `"Hi"` (the fixture agent reply) and 1 otherwise. -/
def fxEv : String → String → String → EvaluationResult :=
  fun _ output_text _ =>
    { match_level := if output_text = "Hi" then 5 else 1
      justification := output_text
      metadata := [] }

/-- A second interaction whose prompt the failing transport rejects. -/
def fxFailInteraction : Interaction :=
  { id := "i2", user_message := "Crash", reference_reply := "Fine",
    interaction_type := "development", reference_metadata := [] }

/-- A scenario with a transport-failing turn followed by a healthy turn. -/
def fxMixedScenario : BasicConversation :=
  { id := "s2", interactions := [fxFailInteraction, fxInteraction],
    description := "mixed", details := [] }

/-- A transport oracle that delivers HTTP 500 for the prompt `"Crash"` and
200 / `"Hi"` for everything else. -/
def fxMixedNet : String → Option HttpResponse :=
  fun prompt =>
    if prompt = "Crash" then some { status_code := 500, text := "boom" }
    else some { status_code := 200, text := "Hi" }

/-- Default orchestrator configuration: cap 10 requests per minute, 15
minute session TTL, the development JWT secret, constant hash
primitive. -/
def fxCfg : OrchestratorConfig :=
  { max_requests_per_minute := 10
    session_ttl_minutes := 15
    jwt_secret := "dev-secret-change-in-production"
    sha256hex16 := fun _ => "fb14a32917c1a1dd" }

/-- A verifier oracle that reports every workflow ready. -/
def fxVerifyReady : String → String → Json → VerificationResult :=
  fun _ _ _ => { ready := true, checks := [], reasons := [], codes := [] }

/-- The empty orchestrator state. -/
def fxSt0 : OrchestratorState := { sessions := [], rate_limiter := [] }

/-- A generation seed fixture. -/
def fxSeed : Json := .obj [("endpoint", .str "http://x")]

/-- First fixture call: prepare at time 0 with fresh id 1. -/
def fxPrep1 : LaunchResponse × OrchestratorState × List OrchestrationStep :=
  prepare_workflow fxCfg fxVerifyReady fxSt0 "P" "generation" fxSeed 0 1

/-- Second fixture call: same project, workflow and seed, one microsecond
later (the same whole second), fresh id 2, from the state the first call
left behind. -/
def fxPrep2 : LaunchResponse × OrchestratorState × List OrchestrationStep :=
  prepare_workflow fxCfg fxVerifyReady fxPrep1.2.1 "P" "generation" fxSeed 1 2

/-- Third fixture call: same as the second but a full second later, so the
issuance timestamps fall in distinct whole seconds. -/
def fxPrep3 : LaunchResponse × OrchestratorState × List OrchestrationStep :=
  prepare_workflow fxCfg fxVerifyReady fxPrep1.2.1 "P" "generation" fxSeed 1000000 2

/-- Eleven prepare calls inside one second (times 0..10 microseconds),
with varying seeds and fresh ids. -/
def fxCalls11 : List PrepCall :=
  (List.range 11).map (fun (k : Nat) =>
    { workflow_type := "generation", seed := .obj [("i", .num (Int.ofNat k))],
      at_time := Int.ofNat k, fresh_id := k + 10 })

/-- The launch token of the first fixture call. -/
def fxTokA : JwtToken := generate_launch_token fxCfg 1 "P" "generation" 0

/-- The launch token issued for the same session one second later. -/
def fxTokB : JwtToken := generate_launch_token fxCfg 1 "P" "generation" 1000000

/-- An evaluation service with a configured provider that has no
registered evaluator class. -/
def fxSvcClaude : EvaluationService :=
  { configs := [("claude", { api_key := "k", api_url := "u", model_id := "m" })] }

/-- An evaluation service with the `openai` provider configured. -/
def fxSvcOpenai : EvaluationService :=
  { configs := [("openai", { api_key := "k", api_url := "u", model_id := "m" })] }

/-- A judge oracle that always returns a fixed successful result. -/
def fxJudgeOk : String → String → String → Option String → Except String EvaluationResult :=
  fun _ _ _ _ => .ok { match_level := 4, justification := "close", metadata := [] }

/-- A judge oracle whose underlying call always raises with message
`"connection reset"`. -/
def fxJudgeRaise : String → String → String → Option String → Except String EvaluationResult :=
  fun _ _ _ _ => .error "connection reset"

/-- An orchestrator state whose bucket for project `P` already holds ten
in-window timestamps, so the next call inside the window is rejected. -/
def fxStFullBucket : OrchestratorState :=
  { sessions := [], rate_limiter := [("P", [0, 0, 0, 0, 0, 0, 0, 0, 0, 0])] }

/-- The failure condition of an agent call as the claims word it: the POST
either failed at the transport level (`none`) or was delivered with a
non-2xx status. -/
def isHttpFailure (o : Option HttpResponse) : Bool :=
  match o with
  | none => true
  | some r => decide (r.status_code < 200) || decide (300 ≤ r.status_code)

/-! ### Theorems -/

/-- Helper: splitting the empty list yields no pieces. -/
theorem splitRuns_nil (sep : Char → Bool) : splitRuns sep [] = [] := rfl

/-- Helper: with a non-empty open piece, the scanner emits that piece
extended by the maximal separator-free run, then continues. -/
theorem splitRunsGo_acc (sep : Char → Bool) (l : List Char) :
    ∀ cur, cur ≠ [] →
      splitRunsGo sep l cur =
        (cur.reverse ++ l.takeWhile (fun x => !sep x)) ::
          splitRunsGo sep (l.dropWhile (fun x => !sep x)) [] := by
  induction l with
  | nil =>
    intro cur hcur
    simp [splitRunsGo, hcur]
  | cons c rest ih =>
    intro cur hcur
    by_cases hc : sep c = true
    · rw [splitRunsGo]
      rw [if_pos hc, if_neg hcur]
      rw [List.takeWhile_cons, List.dropWhile_cons]
      simp only [hc]
      simp only [Bool.not_true, if_neg (by simp : ¬(false = true))]
      rw [splitRunsGo]
      rw [if_pos hc, if_pos rfl]
      simp
    · have hc' : sep c = false := by simpa using hc
      rw [splitRunsGo, if_neg (by simp [hc'] : ¬(sep c = true))]
      rw [ih (c :: cur) (by simp)]
      rw [List.takeWhile_cons, List.dropWhile_cons]
      simp [hc']

/-- Helper: a leading separator is skipped. -/
theorem splitRuns_cons_sep (sep : Char → Bool) (c : Char) (l : List Char)
    (h : sep c = true) : splitRuns sep (c :: l) = splitRuns sep l := by
  unfold splitRuns
  rw [splitRunsGo, if_pos h, if_pos rfl]

/-- Helper: a leading non-separator opens a piece extending over the
maximal separator-free run. -/
theorem splitRuns_cons_notsep (sep : Char → Bool) (c : Char) (l : List Char)
    (h : sep c = false) :
    splitRuns sep (c :: l) =
      (c :: l.takeWhile (fun x => !sep x)) ::
        splitRuns sep (l.dropWhile (fun x => !sep x)) := by
  unfold splitRuns
  rw [splitRunsGo, if_neg (by simp [h] : ¬(sep c = true))]
  rw [splitRunsGo_acc sep l [c] (by simp)]
  simp

/-- Helper: case-analysis induction following the piece structure of
`splitRuns`. -/
theorem splitRuns_cases_ind (sep : Char → Bool) {motive : List Char → Prop}
    (l : List Char)
    (h1 : motive [])
    (h2 : ∀ c rest, sep c = true → motive rest → motive (c :: rest))
    (h3 : ∀ c rest, sep c = false →
      motive (rest.dropWhile (fun x => !sep x)) → motive (c :: rest)) :
    motive l := by
  have key : ∀ n (l : List Char), l.length = n → motive l := by
    intro n
    induction n using Nat.strong_induction_on with
    | _ n ih =>
      intro l hn
      cases l with
      | nil => exact h1
      | cons c rest =>
        by_cases hc : sep c = true
        · refine h2 c rest hc (ih rest.length ?_ rest rfl)
          subst hn
          simp
        · refine h3 c rest (by simpa using hc)
            (ih (rest.dropWhile (fun x => !sep x)).length ?_ _ rfl)
          have hlen := (List.dropWhile_sublist (l := rest) (fun x => !sep x)).length_le
          subst hn
          simp
          omega
  exact key l.length l rfl

/-- Helper: a list of separators splits into no pieces. -/
theorem splitRuns_all_sep (sep : Char → Bool) (s : List Char)
    (h : ∀ c ∈ s, sep c = true) : splitRuns sep s = [] := by
  induction s with
  | nil => exact splitRuns_nil sep
  | cons c rest ih =>
    rw [splitRuns_cons_sep sep c rest (h c (by simp))]
    exact ih (fun x hx => h x (by simp [hx]))

/-- Helper: the head of a non-exhausted `dropWhile` fails the predicate. -/
theorem head_of_dropWhile_eq_cons {α : Type} (p : α → Bool) (l : List α)
    (d : α) (t : List α) (h : l.dropWhile p = d :: t) : p d = false := by
  induction l with
  | nil => simp at h
  | cons c rest ih =>
    rw [List.dropWhile_cons] at h
    by_cases hc : p c = true
    · rw [if_pos hc] at h
      exact ih h
    · rw [if_neg hc] at h
      injection h with h1 h2
      subst h1
      simpa using hc

/-- Helper: appending trailing separators does not change the pieces. -/
theorem splitRuns_append_sep (sep : Char → Bool) (s : List Char)
    (hs : ∀ c ∈ s, sep c = true) :
    ∀ l, splitRuns sep (l ++ s) = splitRuns sep l := by
  intro l
  induction l using splitRuns_cases_ind sep with
  | h1 =>
    simp only [List.nil_append, splitRuns_nil]
    exact splitRuns_all_sep sep s hs
  | h2 c rest hc ih =>
    rw [List.cons_append, splitRuns_cons_sep sep c _ hc,
      splitRuns_cons_sep sep c rest hc]
    exact ih
  | h3 c rest hc' ih =>
    rw [List.cons_append, splitRuns_cons_notsep sep c _ hc',
      splitRuns_cons_notsep sep c rest hc']
    by_cases hdw : rest.dropWhile (fun x => !sep x) = []
    · have hall : ∀ x ∈ rest, (fun x => !sep x) x = true :=
        List.dropWhile_eq_nil_iff.mp hdw
      have htw : rest.takeWhile (fun x => !sep x) = rest :=
        List.takeWhile_eq_self_iff.mpr hall
      have h2 : s.takeWhile (fun x => !sep x) = [] := by
        cases s with
        | nil => rfl
        | cons d t =>
          have hd := hs d (by simp)
          simp [List.takeWhile_cons, hd]
      have h4 : s.dropWhile (fun x => !sep x) = s := by
        cases s with
        | nil => rfl
        | cons d t =>
          have hd := hs d (by simp)
          simp [List.dropWhile_cons, hd]
      rw [List.takeWhile_append_of_pos hall, List.dropWhile_append_of_pos hall,
        h2, h4, htw, hdw, splitRuns_all_sep sep s hs, splitRuns_nil]
      simp
    · obtain ⟨d, t, hd⟩ : ∃ d t, rest.dropWhile (fun x => !sep x) = d :: t := by
        cases hdd : rest.dropWhile (fun x => !sep x) with
        | nil => exact absurd hdd hdw
        | cons d t => exact ⟨d, t, rfl⟩
      have hpd : (!sep d) = false :=
        head_of_dropWhile_eq_cons _ rest d t hd
      have htwall : ∀ x ∈ rest.takeWhile (fun x => !sep x), (fun x => !sep x) x = true := by
        intro x hx
        exact List.mem_takeWhile_imp (p := fun x => !sep x) hx
      have hdecomp : rest = rest.takeWhile (fun x => !sep x) ++ (d :: t) := by
        conv_lhs => rw [← List.takeWhile_append_dropWhile (p := fun x => !sep x) (l := rest)]
        rw [hd]
      have hA : (rest ++ s).takeWhile (fun x => !sep x) = rest.takeWhile (fun x => !sep x) := by
        conv_lhs => rw [hdecomp]
        conv_rhs => rw [hdecomp]
        rw [List.append_assoc, List.takeWhile_append_of_pos htwall,
          List.takeWhile_append_of_pos htwall, List.cons_append]
        rw [List.takeWhile_cons, List.takeWhile_cons]
        simp [hpd]
      have hB : (rest ++ s).dropWhile (fun x => !sep x) =
          rest.dropWhile (fun x => !sep x) ++ s := by
        conv_lhs => rw [hdecomp]
        rw [List.append_assoc, List.dropWhile_append_of_pos htwall, List.cons_append,
          List.dropWhile_cons, hd]
        simp [hpd]
      rw [hA, hB, ih]

/-- Helper: dropping leading separators does not change the pieces. -/
theorem splitRuns_dropWhile_sep (sep : Char → Bool) (l : List Char) :
    splitRuns sep (l.dropWhile sep) = splitRuns sep l := by
  induction l with
  | nil => rfl
  | cons c rest ih =>
    rw [List.dropWhile_cons]
    by_cases hc : sep c = true
    · rw [if_pos hc, splitRuns_cons_sep sep c rest hc]
      exact ih
    · rw [if_neg hc]

/-- Helper: Python `strip` before `split` is a no-op. -/
theorem pySplit_pyStrip (l : List Char) : pySplit (pyStrip l) = pySplit l := by
  unfold pySplit pyStrip
  have h1 : splitRuns isPySpace (l.dropWhile isPySpace) = splitRuns isPySpace l :=
    splitRuns_dropWhile_sep isPySpace l
  have hrev : l.dropWhile isPySpace =
      ((l.dropWhile isPySpace).reverse.dropWhile isPySpace).reverse ++
        ((l.dropWhile isPySpace).reverse.takeWhile isPySpace).reverse := by
    conv_lhs =>
      rw [← List.reverse_reverse (l.dropWhile isPySpace),
        ← List.takeWhile_append_dropWhile (p := isPySpace)
          (l := (l.dropWhile isPySpace).reverse)]
    rw [List.reverse_append]
  have hsep : ∀ c ∈ ((l.dropWhile isPySpace).reverse.takeWhile isPySpace).reverse,
      isPySpace c = true := by
    intro c hc
    rw [List.mem_reverse] at hc
    exact List.mem_takeWhile_imp hc
  calc splitRuns isPySpace (((l.dropWhile isPySpace).reverse.dropWhile isPySpace).reverse)
      = splitRuns isPySpace
          (((l.dropWhile isPySpace).reverse.dropWhile isPySpace).reverse ++
            ((l.dropWhile isPySpace).reverse.takeWhile isPySpace).reverse) :=
        (splitRuns_append_sep isPySpace _ hsep _).symm
    _ = splitRuns isPySpace (l.dropWhile isPySpace) := by rw [← hrev]
    _ = splitRuns isPySpace l := h1

/-- Helper: every piece produced by `splitRuns` is non-empty and free of
separator characters. -/
theorem splitRuns_pieces (sep : Char → Bool) (l : List Char) :
    ∀ w ∈ splitRuns sep l, w ≠ [] ∧ ∀ c ∈ w, sep c = false := by
  induction l using splitRuns_cases_ind sep with
  | h1 =>
    rw [splitRuns_nil]
    intro w hw
    simp at hw
  | h2 c rest hc ih =>
    rw [splitRuns_cons_sep sep c rest hc]
    exact ih
  | h3 c rest hc' ih =>
    rw [splitRuns_cons_notsep sep c rest hc']
    intro w hw
    rcases List.mem_cons.mp hw with h | h
    · subst h
      refine ⟨by simp, ?_⟩
      intro x hx
      rcases List.mem_cons.mp hx with rfl | hx
      · exact hc'
      · have hxp := List.mem_takeWhile_imp (p := fun x => !sep x) hx
        simpa using hxp
    · exact ih w h

/-- Helper: a non-empty separator-free word is a single piece. -/
theorem splitRuns_word (sep : Char → Bool) (w : List Char) (hw : w ≠ [])
    (h : ∀ c ∈ w, sep c = false) : splitRuns sep w = [w] := by
  cases w with
  | nil => exact absurd rfl hw
  | cons c w' =>
    have hc := h c (by simp)
    rw [splitRuns_cons_notsep sep c w' hc]
    have hall : ∀ x ∈ w', (fun x => !sep x) x = true := by
      intro x hx
      simp [h x (by simp [hx])]
    rw [List.takeWhile_eq_self_iff.mpr hall, List.dropWhile_eq_nil_iff.mpr hall,
      splitRuns_nil]

/-- Helper: a separator-free word followed by a separator splits off as the
first piece. -/
theorem splitRuns_word_sep_append (sep : Char → Bool) (w : List Char)
    (d : Char) (r : List Char) (hw : w ≠ []) (h : ∀ c ∈ w, sep c = false)
    (hd : sep d = true) :
    splitRuns sep (w ++ d :: r) = w :: splitRuns sep (d :: r) := by
  cases w with
  | nil => exact absurd rfl hw
  | cons c w' =>
    have hc := h c (by simp)
    rw [List.cons_append, splitRuns_cons_notsep sep c _ hc]
    have hall : ∀ x ∈ w', (fun x => !sep x) x = true := by
      intro x hx
      simp [h x (by simp [hx])]
    rw [List.takeWhile_append_of_pos hall, List.dropWhile_append_of_pos hall,
      List.takeWhile_cons, List.dropWhile_cons]
    simp [hd]

/-- Helper: splitting the space-joined concatenation of non-empty
separator-free words recovers exactly those words. -/
theorem splitRuns_join (sep : Char → Bool) (hsp : sep ' ' = true) :
    ∀ ws, (∀ w ∈ ws, w ≠ [] ∧ ∀ c ∈ w, sep c = false) →
      splitRuns sep (joinWithSpace ws) = ws := by
  intro ws
  induction ws with
  | nil =>
    intro _
    rw [joinWithSpace, splitRuns_nil]
  | cons w ws' ih =>
    intro h
    cases ws' with
    | nil =>
      rw [joinWithSpace]
      exact splitRuns_word sep w (h w (by simp)).1 (h w (by simp)).2
    | cons v ws'' =>
      rw [joinWithSpace,
        splitRuns_word_sep_append sep w ' ' (joinWithSpace (v :: ws''))
          (h w (by simp)).1 (h w (by simp)).2 hsp,
        splitRuns_cons_sep sep ' ' _ hsp,
        ih (fun x hx => h x (by simp [hx]))]

/-- Helper: re-splitting a normalized string recovers the original
words. -/
theorem pySplit_join_pySplit (l : List Char) :
    pySplit (joinWithSpace (pySplit l)) = pySplit l :=
  splitRuns_join isPySpace (by decide) (pySplit l) (splitRuns_pieces isPySpace l)

/-- C8: for every string with at most 20 whitespace-separated tokens,
`extract_key_point` returns the whitespace-normalized input (runs of
whitespace collapsed to single spaces, leading and trailing whitespace
stripped); in particular it is the identity on already-normalized strings
of at most 20 tokens. -/
theorem extract_key_point_normalizes_short_text (t : String)
    (h : (pySplit t.toList).length ≤ 20) :
    extract_key_point t 20 = normalize_whitespace t ∧
      (normalize_whitespace t = t → extract_key_point t 20 = t) := by
  have hsplit := pySplit_pyStrip t.toList
  have hwords := pySplit_join_pySplit t.toList
  have hmain : extract_key_point t 20 = normalize_whitespace t := by
    unfold extract_key_point normalize_whitespace
    simp only [hsplit, hwords]
    split_ifs with h0 h1
    · rw [h0]
      rfl
    · rw [h1]
      rfl
    · rfl
  exact ⟨hmain, fun heq => hmain.trans heq⟩

/-- Witness for C8 at the concrete input `"  hello   world "`. -/
theorem extract_key_point_normalizes_short_text_witness :
    (pySplit ("  hello   world ").toList).length ≤ 20 ∧
      extract_key_point "  hello   world " 20 = normalize_whitespace "  hello   world " ∧
      extract_key_point "hello world" 20 = "hello world" :=
  ⟨by decide,
   (extract_key_point_normalizes_short_text "  hello   world " (by decide)).1,
   (extract_key_point_normalizes_short_text "hello world" (by decide)).2 (by decide)⟩

/-- Helper: `async_request` returns `None` exactly as `raise_for_status`
prescribes on a transport failure or a non-2xx status. -/
theorem async_request_eq_none (net : String → Option HttpResponse) (prompt : String)
    (h : isHttpFailure (net prompt) = true) : async_request net prompt = none := by
  unfold async_request
  unfold isHttpFailure at h
  cases hnet : net prompt with
  | none => rfl
  | some r =>
    rw [hnet] at h
    have hc : ¬(200 ≤ r.status_code ∧ r.status_code < 300) := by
      simp only [Bool.or_eq_true, decide_eq_true_eq] at h
      omega
    simp only []
    rw [if_neg hc]

/-- Helper: a transport failure or non-2xx delivery produces exactly the
failure dict (in particular a non-2xx status never reaches the 200
check with a delivered response). -/
theorem simulate_interaction_step_of_failure (net : String → Option HttpResponse)
    (ev : String → String → String → EvaluationResult) (itx : Interaction)
    (h : isHttpFailure (net itx.user_message) = true) :
    simulate_interaction_step net ev itx = requestFailedResult itx := by
  unfold simulate_interaction_step
  rw [async_request_eq_none net itx.user_message h]

/-- C2: every Interaction whose POST fails at the transport level or
returns non-2xx yields an InteractionResult with agent_reply exactly
`"Request failed"` and an empty evaluation_results mapping, and the loop
still produces one result per Interaction, in order (the scenario is not
aborted). -/
theorem transport_failure_contained (net : String → Option HttpResponse)
    (ev : String → String → String → EvaluationResult)
    (scenario : BasicConversation) :
    (simulate_interactions net ev scenario).length = scenario.interactions.length ∧
    (∀ k, (simulate_interactions net ev scenario).get? k =
        (scenario.interactions.get? k).map (simulate_interaction_step net ev)) ∧
    (∀ k itx, scenario.interactions.get? k = some itx →
      isHttpFailure (net itx.user_message) = true →
        (simulate_interactions net ev scenario).get? k = some (requestFailedResult itx) ∧
        (requestFailedResult itx).agent_reply = "Request failed" ∧
        (requestFailedResult itx).evaluation_results = []) := by
  refine ⟨by simp [simulate_interactions], fun k => ?_, fun k itx hk hfail => ?_⟩
  · unfold simulate_interactions
    rw [List.get?_map]
  · refine ⟨?_, rfl, rfl⟩
    unfold simulate_interactions
    rw [List.get?_map, hk, Option.map_some']
    rw [simulate_interaction_step_of_failure net ev itx hfail]

/-- Witness for C2: in the mixed fixture scenario the first turn gets
HTTP 500, is recorded as `"Request failed"` with empty evaluations, and
the second turn is still processed. -/
theorem transport_failure_contained_witness :
    (simulate_interactions fxMixedNet fxEv fxMixedScenario).get? 0 =
        some (requestFailedResult fxFailInteraction) ∧
      (requestFailedResult fxFailInteraction).agent_reply = "Request failed" ∧
      (requestFailedResult fxFailInteraction).evaluation_results = [] ∧
      (simulate_interactions fxMixedNet fxEv fxMixedScenario).length = 2 := by
  have h := (transport_failure_contained fxMixedNet fxEv fxMixedScenario).2.2
    0 fxFailInteraction (by decide) (by decide)
  exact ⟨h.1, h.2.1, h.2.2, by decide⟩

/-- C1 (code evaluated at the failing input): on a successful 200 turn the
recorded agent_reply is the response text `"Hi"`, yet the stored
per-provider evaluations are those of the Interaction's user_message
`"Hello"` — not of the recorded agent reply — and the two differ under a
judge that distinguishes them. -/
theorem simulator_evaluates_user_message_not_agent_reply :
    (simulate_interactions fxNet fxEv fxScenario).map
        (fun r => (r.agent_reply, r.evaluation_results)) =
      [("Hi", [("openai", fxEv "openai" "Hello" "Hi there"),
               ("ionos", fxEv "ionos" "Hello" "Hi there")])] ∧
    (fxEv "openai" "Hello" "Hi there").match_level = 1 ∧
    (fxEv "openai" "Hi" "Hi there").match_level = 5 := by
  decide

/-- C3 (code evaluated on all inputs): for every batch, every transport
and every judge oracle, the batch-level average_scores mapping, every
scenario-level average_scores mapping and every attempt-level
average_scores mapping produced by `simulate_conversation` is empty — no
provider key is ever present, because the score accumulator is never
written (its writer is commented out) and the batch aggregation reads the
key `"averageScores"` that no scenario result carries. -/
theorem average_scores_always_empty (net : String → Option HttpResponse)
    (ev : String → String → String → EvaluationResult)
    (batch : ConversationBatch) (attempts : Nat) :
    (simulate_conversation net ev batch attempts).average_scores = [] ∧
    (simulate_conversation net ev batch attempts).scenarios.map
        (fun sc => (sc.average_scores, sc.attempts.map (fun a => a.average_scores))) =
      batch.conversations.map
        (fun _ => (([] : List (String × ℚ)),
          List.replicate attempts ([] : List (String × ℚ)))) := by
  constructor
  · rfl
  · unfold simulate_conversation simulate_single_scenario
    simp only [List.map_map]
    apply List.map_congr_left
    intro s _
    simp [calculate_average, collected_scores_after_attempt, all_attempts_scores_final,
      Function.comp_def, List.map_const', List.length_range]

/-- Helper: writing one key leaves the lookup of a different key
unchanged. -/
theorem lookup_setEntry_ne (m : List (String × String)) (k v k' : String)
    (h : k ≠ k') : (setEntry m k v).lookup k' = m.lookup k' := by
  induction m with
  | nil =>
    have h1 : (k' == k) = false := by
      simp
      exact fun he => h he.symm
    simp [setEntry, List.lookup, h1]
  | cons p rest ih =>
    rw [setEntry]
    by_cases hp : p.1 = k
    · rw [if_pos hp]
      have h1 : (k' == k) = false := by
        simp
        exact fun he => h he.symm
      have h2 : (k' == p.1) = false := by
        rw [hp]
        exact h1
      simp [List.lookup, h1, h2]
    · rw [if_neg hp]
      simp [List.lookup]
      cases hkk : k' == p.1 with
      | true => rfl
      | false => exact ih

/-- C7 counterexample: with a configured provider `claude` — present in
the configuration mapping but absent from the evaluator registry —
`evaluate_response` raises (a `KeyError` escapes) instead of returning a
result, so "for every configured provider, evaluate_response never
raises" fails as stated. -/
theorem evaluate_response_raises_for_unregistered_configured_provider :
    evaluate_response fxSvcClaude fxJudgeOk "claude" "out" "ref" none =
      Except.error (PyError.keyError "No evaluator defined for provider claude") := by
  rfl

/-- C7 as amended: for a configured provider that has a registered
evaluator class (`ionos` or `openai`), `evaluate_response` never raises;
a failure of the underlying judge call is returned as an EvaluationResult
with match_level 0 whose metadata carries the error message under
`error`; for a provider that is not configured it raises the
unconfigured-provider `ValueError`. -/
theorem evaluate_response_total_for_registered :
    (∀ (svc : EvaluationService)
       (judge : String → String → String → Option String → Except String EvaluationResult)
       (provider out ref : String) (um : Option String) (cfg : EvaluationConfig),
       svc.configs.lookup provider = some cfg →
       (provider = "ionos" ∨ provider = "openai") →
       ∃ r, evaluate_response svc judge provider out ref um = .ok r ∧
         (∀ e, judge provider out ref um = .error e →
           r.match_level = 0 ∧ r.metadata.lookup "error" = some e)) ∧
    (∀ (svc : EvaluationService)
       (judge : String → String → String → Option String → Except String EvaluationResult)
       (provider out ref : String) (um : Option String),
       svc.configs.lookup provider = none →
       evaluate_response svc judge provider out ref um =
         .error (.valueError
           ("[evaluate_response] No configuration set for provider: " ++ provider))) := by
  constructor
  · intro svc judge provider out ref um cfg hcfg hreg
    have hne : ¬(provider ≠ "ionos" ∧ provider ≠ "openai") := by
      rcases hreg with h | h <;> simp [h]
    unfold evaluate_response
    rw [hcfg]
    simp only [Option.isNone_some, Bool.false_eq_true, if_false]
    rw [if_neg hne]
    cases hj : judge provider out ref um with
    | ok r0 =>
      refine ⟨_, rfl, ?_⟩
      intro e he
      exact absurd he (by simp)
    | error e0 =>
      refine ⟨_, rfl, ?_⟩
      intro e he
      have he0 : e0 = e := by
        simpa using he
      subst he0
      refine ⟨rfl, ?_⟩
      show (dictUpdate [("error", e0)] _).lookup "error" = some e0
      unfold dictUpdate
      simp only [List.foldl_cons, List.foldl_nil]
      rw [lookup_setEntry_ne _ _ _ _ (by decide), lookup_setEntry_ne _ _ _ _ (by decide),
        lookup_setEntry_ne _ _ _ _ (by decide), lookup_setEntry_ne _ _ _ _ (by decide)]
      rfl
  · intro svc judge provider out ref um hnone
    unfold evaluate_response
    rw [hnone]
    rfl

/-- Witness for C7 as amended: with `openai` configured and a judge whose
call raises `"connection reset"`, the service returns a result with
match_level 0 and that error message; for the unconfigured provider
`mistral` it raises. -/
theorem evaluate_response_total_for_registered_witness :
    ((evaluate_response fxSvcOpenai fxJudgeRaise "openai" "Hi" "Hi there" none).map
        (fun r => (r.match_level, r.metadata.lookup "error"))) =
      .ok (0, some "connection reset") ∧
    evaluate_response fxSvcOpenai fxJudgeRaise "mistral" "a" "b" none =
      .error (.valueError
        "[evaluate_response] No configuration set for provider: mistral") := by
  constructor
  · obtain ⟨r, hr, herr⟩ := evaluate_response_total_for_registered.1
      fxSvcOpenai fxJudgeRaise "openai" "Hi" "Hi there" none
      { api_key := "k", api_url := "u", model_id := "m" } (by decide) (by decide)
    have h2 := herr "connection reset" rfl
    rw [hr]
    simp [Except.map, h2.1, h2.2]
  · exact evaluate_response_total_for_registered.2
      fxSvcOpenai fxJudgeRaise "mistral" "a" "b" none (by decide)

/-- Helper: a stored key is looked up to its new value. -/
theorem lookup_setKey_self {α : Type} (m : List (String × α)) (k : String) (v : α) :
    (setKey m k v).lookup k = some v := by
  induction m with
  | nil => simp [setKey, List.lookup]
  | cons p rest ih =>
    rw [setKey]
    by_cases hp : p.1 = k
    · rw [if_pos hp]
      simp [List.lookup]
    · rw [if_neg hp]
      have h1 : (k == p.1) = false := by
        simp
        exact fun he => hp he.symm
      simp [List.lookup, h1]
      exact ih

/-- Helper: the rate check leaves the session store untouched. -/
theorem check_rate_limit_sessions (cfg : OrchestratorConfig) (st : OrchestratorState)
    (pid : String) (now : Int) :
    ((check_rate_limit cfg st pid now).2).sessions = st.sessions := by
  unfold check_rate_limit
  simp only []
  split_ifs <;> rfl

/-- Helper: the rate check refuses exactly when the pruned bucket has
reached the cap. -/
theorem check_rate_limit_false_iff (cfg : OrchestratorConfig) (st : OrchestratorState)
    (pid : String) (now : Int) :
    (check_rate_limit cfg st pid now).1 = false ↔
      cfg.max_requests_per_minute ≤
        ((bucketOf st pid).filter (fun ts => now - 60000000 < ts)).length := by
  unfold check_rate_limit
  simp only []
  split_ifs with h
  · simp [h]
  · simp [h]

/-- Helper: a refused check stores the pruned bucket, adding nothing. -/
theorem bucketOf_check_rejected (cfg : OrchestratorConfig) (st : OrchestratorState)
    (pid : String) (now : Int) (h : (check_rate_limit cfg st pid now).1 = false) :
    bucketOf (check_rate_limit cfg st pid now).2 pid =
      (bucketOf st pid).filter (fun ts => now - 60000000 < ts) := by
  unfold check_rate_limit at h ⊢
  simp only [] at h ⊢
  split_ifs at h ⊢ with hc
  · unfold bucketOf
    simp [lookup_setKey_self]

/-- Helper: an admitting check stores the pruned bucket with the current
timestamp appended. -/
theorem bucketOf_check_admitted (cfg : OrchestratorConfig) (st : OrchestratorState)
    (pid : String) (now : Int) (h : (check_rate_limit cfg st pid now).1 = true) :
    bucketOf (check_rate_limit cfg st pid now).2 pid =
      (bucketOf st pid).filter (fun ts => now - 60000000 < ts) ++ [now] := by
  unfold check_rate_limit at h ⊢
  simp only [] at h ⊢
  split_ifs at h ⊢ with hc
  · unfold bucketOf
    simp [lookup_setKey_self]

/-- Helper: a refused rate check short-circuits `prepare_workflow` into
the rate-limited rejection. -/
theorem prepare_workflow_rejected (cfg : OrchestratorConfig)
    (verify : String → String → Json → VerificationResult) (st : OrchestratorState)
    (pid wt : String) (seed : Json) (now : Int) (fid : Nat)
    (h : (check_rate_limit cfg st pid now).1 = false) :
    prepare_workflow cfg verify st pid wt seed now fid =
      (rate_limited_response, (check_rate_limit cfg st pid now).2, []) := by
  unfold prepare_workflow
  simp only []
  rw [if_pos h]

/-- Helper: an admitted call that finds a live matching session reuses it
and issues a fresh token, with no verification and no initialization. -/
theorem prepare_workflow_found (cfg : OrchestratorConfig)
    (verify : String → String → Json → VerificationResult) (st : OrchestratorState)
    (pid wt : String) (seed : Json) (now : Int) (fid : Nat) (S : WorkflowSession)
    (hrl : (check_rate_limit cfg st pid now).1 = true)
    (hfind : find_existing_session (check_rate_limit cfg st pid now).2 pid wt
      (generate_seed_hash cfg seed) now = some S) :
    prepare_workflow cfg verify st pid wt seed now fid =
      ({ success := true
         session_id := some S.session_id
         launch_token := some (generate_launch_token cfg S.session_id pid wt now)
         redirect_path := some (get_redirect_path wt S.session_id pid)
         verification := none }, (check_rate_limit cfg st pid now).2, []) := by
  unfold prepare_workflow
  simp only []
  rw [if_neg (by simp [hrl]), hfind]

/-- Helper: an admitted call with no matching session and a not-ready
verdict reports the verification and mints nothing. -/
theorem prepare_workflow_notready (cfg : OrchestratorConfig)
    (verify : String → String → Json → VerificationResult) (st : OrchestratorState)
    (pid wt : String) (seed : Json) (now : Int) (fid : Nat)
    (hrl : (check_rate_limit cfg st pid now).1 = true)
    (hfind : find_existing_session (check_rate_limit cfg st pid now).2 pid wt
      (generate_seed_hash cfg seed) now = none)
    (hready : (verify pid wt seed).ready = false) :
    prepare_workflow cfg verify st pid wt seed now fid =
      ({ success := false
         session_id := none
         launch_token := none
         redirect_path := none
         verification := some (verify pid wt seed) },
        (check_rate_limit cfg st pid now).2, [.verification_run]) := by
  unfold prepare_workflow
  simp only []
  rw [if_neg (by simp [hrl]), hfind]
  simp only []
  rw [if_pos hready]

/-- Helper: an admitted call with no matching session and a ready verdict
initializes a fresh session and issues its token. -/
theorem prepare_workflow_new (cfg : OrchestratorConfig)
    (verify : String → String → Json → VerificationResult) (st : OrchestratorState)
    (pid wt : String) (seed : Json) (now : Int) (fid : Nat)
    (hrl : (check_rate_limit cfg st pid now).1 = true)
    (hfind : find_existing_session (check_rate_limit cfg st pid now).2 pid wt
      (generate_seed_hash cfg seed) now = none)
    (hready : (verify pid wt seed).ready = true) :
    prepare_workflow cfg verify st pid wt seed now fid =
      ({ success := true
         session_id := some fid
         launch_token := some (generate_launch_token cfg fid pid wt now)
         redirect_path := some (get_redirect_path wt fid pid)
         verification := none },
        (initialize_workflow cfg (check_rate_limit cfg st pid now).2 pid wt seed
          (generate_seed_hash cfg seed) now fid).2,
        [.verification_run, .session_init]) := by
  unfold prepare_workflow
  simp only []
  rw [if_neg (by simp [hrl]), hfind]
  simp only []
  rw [if_neg (by simp [hready])]
  have hsid : (initialize_workflow cfg (check_rate_limit cfg st pid now).2 pid wt seed
      (generate_seed_hash cfg seed) now fid).1.session_id = fid := by
    unfold initialize_workflow
    simp only []
  rw [hsid]

/-- Helper: initialization adds the minted session to the store and
touches nothing else. -/
theorem initialize_workflow_state (cfg : OrchestratorConfig) (st : OrchestratorState)
    (pid wt : String) (seed : Json) (h : String) (now : Int) (fid : Nat) :
    (initialize_workflow cfg st pid wt seed h now fid).2 =
      { st with sessions := (setKey st.sessions (toString fid)
          ((initialize_workflow cfg st pid wt seed h now fid).1)) } := by
  unfold initialize_workflow
  simp only []

/-- Helper: the fields of a freshly minted session, apart from its
workflow-specific context. -/
theorem initialize_workflow_session_fields (cfg : OrchestratorConfig)
    (st : OrchestratorState) (pid wt : String) (seed : Json) (h : String)
    (now : Int) (fid : Nat) :
    (initialize_workflow cfg st pid wt seed h now fid).1.session_id = fid ∧
    (initialize_workflow cfg st pid wt seed h now fid).1.project_id = pid ∧
    (initialize_workflow cfg st pid wt seed h now fid).1.workflow_type = wt ∧
    (initialize_workflow cfg st pid wt seed h now fid).1.seed_hash = h ∧
    (initialize_workflow cfg st pid wt seed h now fid).1.created_at = now ∧
    (initialize_workflow cfg st pid wt seed h now fid).1.expires_at =
      now + cfg.session_ttl_minutes * 60000000 := by
  refine ⟨?_, ?_, ?_, ?_, ?_, ?_⟩ <;>
    (unfold initialize_workflow; simp only [])

/-- Helper: no branch of `prepare_workflow` changes the rate-limit state
beyond what the rate check itself wrote. -/
theorem prepare_workflow_rate_limiter (cfg : OrchestratorConfig)
    (verify : String → String → Json → VerificationResult) (st : OrchestratorState)
    (pid wt : String) (seed : Json) (now : Int) (fid : Nat) :
    (prepare_workflow cfg verify st pid wt seed now fid).2.1.rate_limiter =
      (check_rate_limit cfg st pid now).2.rate_limiter := by
  by_cases hrl : (check_rate_limit cfg st pid now).1 = false
  · rw [prepare_workflow_rejected cfg verify st pid wt seed now fid hrl]
  · have hrl' : (check_rate_limit cfg st pid now).1 = true := by
      simpa using hrl
    cases hfind : find_existing_session (check_rate_limit cfg st pid now).2 pid wt
        (generate_seed_hash cfg seed) now with
    | some S => rw [prepare_workflow_found cfg verify st pid wt seed now fid S hrl' hfind]
    | none =>
      cases hready : (verify pid wt seed).ready with
      | false => rw [prepare_workflow_notready cfg verify st pid wt seed now fid hrl' hfind hready]
      | true =>
        rw [prepare_workflow_new cfg verify st pid wt seed now fid hrl' hfind hready]
        rw [initialize_workflow_state]

/-- Helper: the rate-limited rejection carries the RATE_LIMITED code. -/
theorem isRateLimited_rate_limited_response : isRateLimited rate_limited_response := by
  refine ⟨rfl, _, rfl, ?_⟩
  simp [rate_limited_response]

/-- Helper: an admitted call never reports RATE_LIMITED, as long as the
verifier itself never emits that code (the repository verifier emits only
CONFIG_MISSING, CONNECTIVITY_ERROR, PERMISSION_DENIED, VALIDATION_ERROR
and RESOURCE_UNAVAILABLE). -/
theorem prepare_not_rate_limited_of_admitted (cfg : OrchestratorConfig)
    (verify : String → String → Json → VerificationResult) (st : OrchestratorState)
    (pid wt : String) (seed : Json) (now : Int) (fid : Nat)
    (hverify : ∀ p w s, ErrorCode.RATE_LIMITED ∉ (verify p w s).codes)
    (hrl : (check_rate_limit cfg st pid now).1 = true) :
    ¬ isRateLimited (prepare_workflow cfg verify st pid wt seed now fid).1 := by
  cases hfind : find_existing_session (check_rate_limit cfg st pid now).2 pid wt
      (generate_seed_hash cfg seed) now with
  | some S =>
    rw [prepare_workflow_found cfg verify st pid wt seed now fid S hrl hfind]
    rintro ⟨-, v, hv, -⟩
    simp at hv
  | none =>
    cases hready : (verify pid wt seed).ready with
    | false =>
      rw [prepare_workflow_notready cfg verify st pid wt seed now fid hrl hfind hready]
      rintro ⟨-, v, hv, hmem⟩
      have hv' : verify pid wt seed = v := by
        simpa using hv
      exact hverify pid wt seed (hv' ▸ hmem)
    | true =>
      rw [prepare_workflow_new cfg verify st pid wt seed now fid hrl hfind hready]
      rintro ⟨-, v, hv, -⟩
      simp at hv

/-- C10: a `prepare_workflow` call refused by the rate limiter returns the
RATE_LIMITED rejection and records no timestamp: the project's bucket
after the call is exactly the pruned old bucket (every entry was already
there), and no session is touched, so rejected retries never extend the
rejection period. -/
theorem rejected_call_records_no_timestamp (cfg : OrchestratorConfig)
    (verify : String → String → Json → VerificationResult) (st : OrchestratorState)
    (pid wt : String) (seed : Json) (now : Int) (fid : Nat)
    (hrl : (check_rate_limit cfg st pid now).1 = false) :
    (prepare_workflow cfg verify st pid wt seed now fid).1 = rate_limited_response ∧
    isRateLimited rate_limited_response ∧
    bucketOf (prepare_workflow cfg verify st pid wt seed now fid).2.1 pid =
      (bucketOf st pid).filter (fun ts => now - 60000000 < ts) ∧
    (∀ ts ∈ bucketOf (prepare_workflow cfg verify st pid wt seed now fid).2.1 pid,
      ts ∈ bucketOf st pid) ∧
    (prepare_workflow cfg verify st pid wt seed now fid).2.1.sessions = st.sessions := by
  rw [prepare_workflow_rejected cfg verify st pid wt seed now fid hrl]
  refine ⟨rfl, isRateLimited_rate_limited_response, bucketOf_check_rejected cfg st pid now hrl,
    ?_, check_rate_limit_sessions cfg st pid now⟩
  intro ts hts
  rw [bucketOf_check_rejected cfg st pid now hrl] at hts
  exact (List.mem_filter.mp hts).1

/-- Witness for C10: with ten in-window timestamps already recorded for
project `P`, a call one microsecond later is refused, its bucket keeps
exactly the ten old timestamps, and no session is created. -/
theorem rejected_call_records_no_timestamp_witness :
    (prepare_workflow fxCfg fxVerifyReady fxStFullBucket "P" "generation" fxSeed 1 7).1 =
        rate_limited_response ∧
      isRateLimited rate_limited_response ∧
      bucketOf (prepare_workflow fxCfg fxVerifyReady fxStFullBucket "P" "generation"
          fxSeed 1 7).2.1 "P" =
        (bucketOf fxStFullBucket "P").filter (fun ts => 1 - 60000000 < ts) ∧
      (∀ ts ∈ bucketOf (prepare_workflow fxCfg fxVerifyReady fxStFullBucket "P" "generation"
          fxSeed 1 7).2.1 "P", ts ∈ bucketOf fxStFullBucket "P") ∧
      (prepare_workflow fxCfg fxVerifyReady fxStFullBucket "P" "generation"
          fxSeed 1 7).2.1.sessions = fxStFullBucket.sessions :=
  rejected_call_records_no_timestamp fxCfg fxVerifyReady fxStFullBucket
    "P" "generation" fxSeed 1 7 (by decide)

/-- Helper: the stored value is among the mapping's values. -/
theorem mem_valuesOf_setKey {α : Type} (m : List (String × α)) (k : String) (v : α) :
    v ∈ valuesOf (setKey m k v) := by
  induction m with
  | nil => simp [setKey, valuesOf]
  | cons p rest ih =>
    rw [setKey]
    by_cases hp : p.1 = k
    · rw [if_pos hp]
      simp [valuesOf]
    · rw [if_neg hp]
      simp only [valuesOf, List.map_cons, List.mem_cons]
      exact Or.inr ih

/-- Helper: a matching session is strictly unexpired. -/
theorem sessionMatches_expires (pid wt h : String) (now : Int) (S : WorkflowSession)
    (hm : sessionMatches pid wt h now S = true) : now < S.expires_at := by
  simp [sessionMatches] at hm
  exact hm.2

/-- C9: with a positive session TTL, a successful `prepare_workflow`
response always refers to a session stored with `expires_at` strictly in
the future: the idempotency lookup only matches sessions with
`expires_at > now`, so an expired session is never reused even before the
background sweeper deletes it. -/
theorem prepare_returns_unexpired_session (cfg : OrchestratorConfig)
    (verify : String → String → Json → VerificationResult) (st : OrchestratorState)
    (pid wt : String) (seed : Json) (now : Int) (fid : Nat)
    (httl : 0 < cfg.session_ttl_minutes)
    (hs : (prepare_workflow cfg verify st pid wt seed now fid).1.success = true) :
    ∃ S, S ∈ valuesOf (prepare_workflow cfg verify st pid wt seed now fid).2.1.sessions ∧
      (prepare_workflow cfg verify st pid wt seed now fid).1.session_id =
        some S.session_id ∧
      now < S.expires_at := by
  by_cases hrl : (check_rate_limit cfg st pid now).1 = false
  · rw [prepare_workflow_rejected cfg verify st pid wt seed now fid hrl] at hs
    simp [rate_limited_response] at hs
  · have hrl' : (check_rate_limit cfg st pid now).1 = true := by
      simpa using hrl
    cases hfind : find_existing_session (check_rate_limit cfg st pid now).2 pid wt
        (generate_seed_hash cfg seed) now with
    | some S =>
      rw [prepare_workflow_found cfg verify st pid wt seed now fid S hrl' hfind]
      have hfind' : (valuesOf (check_rate_limit cfg st pid now).2.sessions).find?
          (sessionMatches pid wt (generate_seed_hash cfg seed) now) = some S := hfind
      refine ⟨S, List.mem_of_find?_eq_some hfind', rfl,
        sessionMatches_expires pid wt _ now S (List.find?_some hfind')⟩
    | none =>
      cases hready : (verify pid wt seed).ready with
      | false =>
        rw [prepare_workflow_notready cfg verify st pid wt seed now fid hrl' hfind hready] at hs
        simp at hs
      | true =>
        rw [prepare_workflow_new cfg verify st pid wt seed now fid hrl' hfind hready]
        have hf := initialize_workflow_session_fields cfg
          (check_rate_limit cfg st pid now).2 pid wt seed (generate_seed_hash cfg seed) now fid
        refine ⟨(initialize_workflow cfg (check_rate_limit cfg st pid now).2 pid wt seed
          (generate_seed_hash cfg seed) now fid).1, ?_, ?_, ?_⟩
        · rw [initialize_workflow_state]
          exact mem_valuesOf_setKey _ _ _
        · rw [hf.1]
        · rw [hf.2.2.2.2.2]
          have hpos : 0 < cfg.session_ttl_minutes * 60000000 := by positivity
          omega

/-- Witness for C9: the first fixture call succeeds and the stored session
expires 15 minutes after the call. -/
theorem prepare_returns_unexpired_session_witness :
    (0 : Int) < fxCfg.session_ttl_minutes ∧
      fxPrep1.1.success = true ∧
      ∃ S, S ∈ valuesOf fxPrep1.2.1.sessions ∧
        fxPrep1.1.session_id = some S.session_id ∧ (0 : Int) < S.expires_at :=
  ⟨by decide, by decide,
    prepare_returns_unexpired_session fxCfg fxVerifyReady fxSt0 "P" "generation"
      fxSeed 0 1 (by decide) (by decide)⟩

/-- Helper: PyJWT second-resolution timestamps make `exp` land exactly 300
seconds after `nbf`. -/
theorem jwtTimestamp_add_300s (now : Int) :
    jwtTimestamp (now + 300000000) = jwtTimestamp now + 300 := by
  unfold jwtTimestamp
  have h3 : (300000000 : Int) = 300 * 1000000 := by norm_num
  rw [h3, Int.add_mul_ediv_right now 300 (by norm_num : (1000000 : Int) ≠ 0)]

/-- C5 counterexample: the audience claim of an issued launch token is the
string `"levelapp-orchestrator"`, not `"orchestrator"` as claimed. -/
theorem launch_token_aud_not_orchestrator :
    (fxPrep1.1.launch_token.map (fun tok => tok.payload.aud)) =
        some "levelapp-orchestrator" ∧
      "levelapp-orchestrator" ≠ "orchestrator" := by
  decide

/-- C5 as amended: every launch token issued by `prepare_workflow` is an
HS256 token over the process secret whose payload contains exactly the
returned session id, the project id, the workflow type, `exp` equal to the
issuance time plus 5 minutes, `nbf` equal to the issuance time (both at
the second resolution PyJWT serializes datetimes with, so
`exp = nbf + 300`), and `aud` equal to `"levelapp-orchestrator"`. -/
theorem launch_token_payload_fields (cfg : OrchestratorConfig)
    (verify : String → String → Json → VerificationResult) (st : OrchestratorState)
    (pid wt : String) (seed : Json) (now : Int) (fid : Nat) (tok : JwtToken)
    (htok : (prepare_workflow cfg verify st pid wt seed now fid).1.launch_token = some tok) :
    tok.secret = cfg.jwt_secret ∧
    (∃ sid, (prepare_workflow cfg verify st pid wt seed now fid).1.session_id = some sid ∧
      tok.payload =
        { session_id := toString sid
          project_id := pid
          workflow_type := wt
          exp := jwtTimestamp (now + 300000000)
          nbf := jwtTimestamp now
          aud := "levelapp-orchestrator" }) ∧
    tok.payload.exp = tok.payload.nbf + 300 := by
  by_cases hrl : (check_rate_limit cfg st pid now).1 = false
  · rw [prepare_workflow_rejected cfg verify st pid wt seed now fid hrl] at htok
    simp [rate_limited_response] at htok
  · have hrl' : (check_rate_limit cfg st pid now).1 = true := by
      simpa using hrl
    cases hfind : find_existing_session (check_rate_limit cfg st pid now).2 pid wt
        (generate_seed_hash cfg seed) now with
    | some S =>
      rw [prepare_workflow_found cfg verify st pid wt seed now fid S hrl' hfind] at htok ⊢
      have htok' : generate_launch_token cfg S.session_id pid wt now = tok := by
        simpa using htok
      subst htok'
      exact ⟨rfl, ⟨S.session_id, rfl, rfl⟩, jwtTimestamp_add_300s now⟩
    | none =>
      cases hready : (verify pid wt seed).ready with
      | false =>
        rw [prepare_workflow_notready cfg verify st pid wt seed now fid hrl' hfind hready] at htok
        simp at htok
      | true =>
        rw [prepare_workflow_new cfg verify st pid wt seed now fid hrl' hfind hready] at htok ⊢
        have htok' : generate_launch_token cfg fid pid wt now = tok := by
          simpa using htok
        subst htok'
        exact ⟨rfl, ⟨fid, rfl, rfl⟩, jwtTimestamp_add_300s now⟩

/-- Witness for C5 as amended, at the first fixture call. -/
theorem launch_token_payload_fields_witness :
    fxPrep1.1.launch_token = some fxTokA ∧
      fxTokA.secret = fxCfg.jwt_secret ∧
      fxTokA.payload.exp = fxTokA.payload.nbf + 300 ∧
      fxTokA.payload.aud = "levelapp-orchestrator" := by
  have h := launch_token_payload_fields fxCfg fxVerifyReady fxSt0 "P" "generation"
    fxSeed 0 1 fxTokA (by decide)
  exact ⟨by decide, h.1, h.2.2, by decide⟩

/-- Helper: a session that fails the match at an earlier time still fails
it at any later time (only the expiry conjunct depends on the clock, and
expiry is monotone). -/
theorem sessionMatches_false_mono (pid wt h : String) (t1 t2 : Int) (ht : t1 ≤ t2)
    (S : WorkflowSession) (h1 : sessionMatches pid wt h t1 S = false) :
    sessionMatches pid wt h t2 S = false := by
  cases h2 : sessionMatches pid wt h t2 S with
  | false => rfl
  | true =>
    exfalso
    simp only [sessionMatches, Bool.and_eq_true, beq_iff_eq, decide_eq_true_eq] at h2
    have h1' : sessionMatches pid wt h t1 S = true := by
      simp only [sessionMatches, Bool.and_eq_true, beq_iff_eq, decide_eq_true_eq]
      exact ⟨h2.1, by omega⟩
    rw [h1'] at h1
    exact absurd h1 (by simp)

/-- Helper: storing a session into a store none of whose sessions match at
the earlier time makes it the first (and only) match at the later time. -/
theorem find_after_setKey (p1 p2 : WorkflowSession → Bool)
    (m : List (String × WorkflowSession)) (k : String) (S : WorkflowSession)
    (hnone : ∀ s ∈ valuesOf m, p1 s = false)
    (hmono : ∀ s, p1 s = false → p2 s = false)
    (hS : p2 S = true) :
    (valuesOf (setKey m k S)).find? p2 = some S := by
  induction m with
  | nil =>
    simp [setKey, valuesOf, List.find?, hS]
  | cons p rest ih =>
    rw [setKey]
    by_cases hp : p.1 = k
    · rw [if_pos hp]
      simp [valuesOf, List.find?, hS]
    · rw [if_neg hp]
      have hp1 : p1 p.2 = false := hnone p.2 (by simp [valuesOf])
      have hp2 : p2 p.2 = false := hmono _ hp1
      simp only [valuesOf, List.map_cons]
      rw [List.find?_cons_of_neg _ (by simp [hp2])]
      exact ih (fun s hs => hnone s (by simp [valuesOf] at hs ⊢; exact Or.inr hs))

/-- C4 counterexample: two `prepare_workflow` calls with the same project,
workflow type and seed, one microsecond apart (within the same whole
second), both succeed with the same session id — but the two launch
tokens are the same string, because the JWT payload carries
second-resolution timestamps; the claim that the tokens are distinct
strings fails as stated. -/
theorem same_second_tokens_equal :
    fxPrep1.1.success = true ∧ fxPrep2.1.success = true ∧
      fxPrep1.1.session_id = some 1 ∧ fxPrep2.1.session_id = some 1 ∧
      fxPrep1.1.launch_token = fxPrep2.1.launch_token ∧
      fxPrep1.1.launch_token ≠ none := by
  decide

/-- C4 as amended: two admitted `prepare_workflow` calls with the same
project and workflow type and canonically-equal seeds, the second issued
before the first call's session expires, both succeed with the same
session id; each launch token's decoded payload carries that same session
id, and the two tokens are distinct strings whenever the calls' issuance
times fall in distinct whole seconds (the resolution at which PyJWT
serializes the `nbf`/`exp` claims — calls within one second produce
byte-identical tokens); the second call performs no re-verification and
no re-initialization and leaves the session store unchanged. -/
theorem idempotent_prepare_same_session (cfg : OrchestratorConfig)
    (verify : String → String → Json → VerificationResult) (st : OrchestratorState)
    (pid wt : String) (s1 s2 : Json) (t1 t2 : Int) (i1 i2 : Nat)
    (hseed : canonicalJson s1 = canonicalJson s2)
    (hfind : find_existing_session st pid wt (generate_seed_hash cfg s1) t1 = none)
    (hrl1 : (check_rate_limit cfg st pid t1).1 = true)
    (hready : (verify pid wt s1).ready = true)
    (hrl2 : (check_rate_limit cfg (prepare_workflow cfg verify st pid wt s1 t1 i1).2.1
      pid t2).1 = true)
    (ht : t1 ≤ t2)
    (httl : t2 < t1 + cfg.session_ttl_minutes * 60000000) :
    (prepare_workflow cfg verify st pid wt s1 t1 i1).1.success = true ∧
    (prepare_workflow cfg verify (prepare_workflow cfg verify st pid wt s1 t1 i1).2.1
      pid wt s2 t2 i2).1.success = true ∧
    (prepare_workflow cfg verify st pid wt s1 t1 i1).1.session_id = some i1 ∧
    (prepare_workflow cfg verify (prepare_workflow cfg verify st pid wt s1 t1 i1).2.1
      pid wt s2 t2 i2).1.session_id = some i1 ∧
    (∀ tk1 tk2,
      (prepare_workflow cfg verify st pid wt s1 t1 i1).1.launch_token = some tk1 →
      (prepare_workflow cfg verify (prepare_workflow cfg verify st pid wt s1 t1 i1).2.1
        pid wt s2 t2 i2).1.launch_token = some tk2 →
      tk1.payload.session_id = tk2.payload.session_id ∧
      (jwtTimestamp t1 ≠ jwtTimestamp t2 → tk1 ≠ tk2)) ∧
    (prepare_workflow cfg verify (prepare_workflow cfg verify st pid wt s1 t1 i1).2.1
      pid wt s2 t2 i2).2.2 = [] ∧
    (prepare_workflow cfg verify (prepare_workflow cfg verify st pid wt s1 t1 i1).2.1
      pid wt s2 t2 i2).2.1.sessions =
      (prepare_workflow cfg verify st pid wt s1 t1 i1).2.1.sessions := by
  have hfindA : find_existing_session (check_rate_limit cfg st pid t1).2 pid wt
      (generate_seed_hash cfg s1) t1 = none := by
    unfold find_existing_session at hfind ⊢
    rw [check_rate_limit_sessions]
    exact hfind
  have R1 := prepare_workflow_new cfg verify st pid wt s1 t1 i1 hrl1 hfindA hready
  have hf := initialize_workflow_session_fields cfg (check_rate_limit cfg st pid t1).2
    pid wt s1 (generate_seed_hash cfg s1) t1 i1
  have hhash : generate_seed_hash cfg s2 = generate_seed_hash cfg s1 := by
    unfold generate_seed_hash
    rw [hseed]
  have hsessions1 : (prepare_workflow cfg verify st pid wt s1 t1 i1).2.1.sessions =
      setKey (check_rate_limit cfg st pid t1).2.sessions (toString i1)
        ((initialize_workflow cfg (check_rate_limit cfg st pid t1).2 pid wt s1
          (generate_seed_hash cfg s1) t1 i1).1) := by
    rw [R1, initialize_workflow_state]
  have hfindB : find_existing_session
      (check_rate_limit cfg (prepare_workflow cfg verify st pid wt s1 t1 i1).2.1 pid t2).2
      pid wt (generate_seed_hash cfg s2) t2 =
      some ((initialize_workflow cfg (check_rate_limit cfg st pid t1).2 pid wt s1
        (generate_seed_hash cfg s1) t1 i1).1) := by
    rw [hhash]
    unfold find_existing_session
    rw [check_rate_limit_sessions, hsessions1]
    apply find_after_setKey (sessionMatches pid wt (generate_seed_hash cfg s1) t1)
    · intro s hs
      unfold find_existing_session at hfindA
      have h' := List.find?_eq_none.mp hfindA s hs
      simpa using h'
    · exact fun s => sessionMatches_false_mono pid wt _ t1 t2 ht s
    · simp only [sessionMatches, Bool.and_eq_true, beq_iff_eq, decide_eq_true_eq]
      refine ⟨⟨⟨hf.2.1, hf.2.2.1⟩, hf.2.2.2.1⟩, ?_⟩
      rw [hf.2.2.2.2.2]
      exact httl
  have R2 := prepare_workflow_found cfg verify
    (prepare_workflow cfg verify st pid wt s1 t1 i1).2.1 pid wt s2 t2 i2 _ hrl2 hfindB
  refine ⟨by rw [R1], by rw [R2], by rw [R1], ?_, ?_, by rw [R2], ?_⟩
  · rw [R2]
    simp only []
    rw [hf.1]
  · intro tk1 tk2 htk1 htk2
    rw [R1] at htk1
    rw [R2] at htk2
    have htk1' : generate_launch_token cfg i1 pid wt t1 = tk1 := by
      simpa using htk1
    have htk2' : generate_launch_token cfg
        ((initialize_workflow cfg (check_rate_limit cfg st pid t1).2 pid wt s1
          (generate_seed_hash cfg s1) t1 i1).1).session_id pid wt t2 = tk2 := by
      simpa using htk2
    rw [hf.1] at htk2'
    constructor
    · rw [← htk1', ← htk2']
      rfl
    · intro hts heq
      apply hts
      have : tk1.payload.nbf = tk2.payload.nbf := by rw [heq]
      rw [← htk1', ← htk2'] at this
      simpa [generate_launch_token] using this
  · rw [R2]
    simp only []
    rw [check_rate_limit_sessions]

/-- Witness for C4 as amended: the fixture calls at times 0 and 1000000
microseconds (distinct whole seconds) reuse the same session and issue
distinct tokens. -/
theorem idempotent_prepare_same_session_witness :
    fxPrep1.1.success = true ∧ fxPrep3.1.success = true ∧
      fxPrep1.1.session_id = some 1 ∧ fxPrep3.1.session_id = some 1 ∧
      fxPrep3.2.2 = [] ∧ fxPrep3.2.1.sessions = fxPrep1.2.1.sessions ∧
      fxTokA.payload.session_id = fxTokB.payload.session_id ∧
      fxTokA ≠ fxTokB := by
  have h := idempotent_prepare_same_session fxCfg fxVerifyReady fxSt0 "P" "generation"
    fxSeed fxSeed 0 1000000 1 2 rfl rfl (by decide) (by decide) (by decide)
    (by decide) (by decide)
  have htk := h.2.2.2.2.1 fxTokA fxTokB (by decide) (by decide)
  exact ⟨h.1, h.2.1, h.2.2.1, h.2.2.2.1, h.2.2.2.2.2.1, h.2.2.2.2.2.2,
    htk.1, htk.2 (by decide)⟩

/-- Helper: pruning to the rolling window never drops a timestamp of the
current one-second burst. -/
theorem countP_window (b : List Int) (T t : Int) (hle : t ≤ T + 1000000) :
    ((b.filter (fun ts => decide (t - 60000000 < ts))).countP
        (fun ts => decide (T ≤ ts))) =
      b.countP (fun ts => decide (T ≤ ts)) := by
  rw [List.countP_filter]
  apply List.countP_congr
  intro ts _
  simp only [Bool.and_eq_true, decide_eq_true_eq]
  constructor
  · rintro ⟨h1, -⟩
    exact h1
  · intro h1
    exact ⟨h1, by omega⟩

/-- Helper: when the in-burst timestamps already recorded plus the calls
still to make exceed the cap of 10, some call of the burst is refused. -/
theorem runPrepare_rejected_of_count (cfg : OrchestratorConfig)
    (verify : String → String → Json → VerificationResult) (pid : String) (T : Int)
    (hcap : cfg.max_requests_per_minute = 10) :
    ∀ calls st,
      (∀ c ∈ calls, T ≤ c.at_time ∧ c.at_time ≤ T + 1000000) →
      11 ≤ (bucketOf st pid).countP (fun ts => decide (T ≤ ts)) + calls.length →
      1 ≤ calls.length →
      ∃ r ∈ (runPrepareCalls cfg verify pid calls st).1, isRateLimited r := by
  intro calls
  induction calls with
  | nil =>
    intro st _ _ hlen
    simp at hlen
  | cons c rest ih =>
    intro st hwin hcount _
    by_cases hrl : (check_rate_limit cfg st pid c.at_time).1 = false
    · refine ⟨rate_limited_response, ?_, isRateLimited_rate_limited_response⟩
      simp only [runPrepareCalls]
      rw [prepare_workflow_rejected cfg verify st pid c.workflow_type c.seed
        c.at_time c.fresh_id hrl]
      exact List.mem_cons_self _ _
    · have hrl' : (check_rate_limit cfg st pid c.at_time).1 = true := by
        simpa using hrl
      have hwinc := hwin c (by simp)
      have hbproj : bucketOf (prepare_workflow cfg verify st pid c.workflow_type c.seed
          c.at_time c.fresh_id).2.1 pid = bucketOf (check_rate_limit cfg st pid c.at_time).2 pid := by
        unfold bucketOf
        rw [prepare_workflow_rate_limiter]
      have hcnt : (bucketOf (prepare_workflow cfg verify st pid c.workflow_type c.seed
            c.at_time c.fresh_id).2.1 pid).countP (fun ts => decide (T ≤ ts)) =
          (bucketOf st pid).countP (fun ts => decide (T ≤ ts)) + 1 := by
        rw [hbproj, bucketOf_check_admitted cfg st pid c.at_time hrl',
          List.countP_append, countP_window _ T c.at_time hwinc.2]
        simp [List.countP_cons, hwinc.1]
      have hKle : (bucketOf st pid).countP (fun ts => decide (T ≤ ts)) ≤
          ((bucketOf st pid).filter (fun ts => decide (c.at_time - 60000000 < ts))).length := by
        rw [← countP_window (bucketOf st pid) T c.at_time hwinc.2]
        exact List.countP_le_length _
      have hlt : ¬ (cfg.max_requests_per_minute ≤
          ((bucketOf st pid).filter (fun ts => decide (c.at_time - 60000000 < ts))).length) := by
        intro hcontra
        have hfalse := (check_rate_limit_false_iff cfg st pid c.at_time).mpr hcontra
        rw [hfalse] at hrl'
        exact absurd hrl' (by simp)
      have hK9 : (bucketOf st pid).countP (fun ts => decide (T ≤ ts)) ≤ 9 := by
        rw [hcap] at hlt
        omega
      have hcount' : 11 ≤ (bucketOf (prepare_workflow cfg verify st pid c.workflow_type
          c.seed c.at_time c.fresh_id).2.1 pid).countP (fun ts => decide (T ≤ ts)) +
          rest.length := by
        rw [hcnt]
        simp at hcount
        omega
      have hrest : 1 ≤ rest.length := by
        simp at hcount
        omega
      obtain ⟨r, hrmem, hrrl⟩ := ih
        (prepare_workflow cfg verify st pid c.workflow_type c.seed c.at_time c.fresh_id).2.1
        (fun x hx => hwin x (by simp [hx])) hcount' hrest
      refine ⟨r, ?_, hrrl⟩
      simp only [runPrepareCalls]
      exact List.mem_cons_of_mem _ hrmem

/-- Helper: starting from buckets bounded by `T`, a run of calls at times
bounded by `T` leaves the project bucket bounded by `T`. -/
theorem runPrepare_bucket_le (cfg : OrchestratorConfig)
    (verify : String → String → Json → VerificationResult) (pid : String) (T : Int) :
    ∀ calls st, (∀ ts ∈ bucketOf st pid, ts ≤ T) → (∀ c ∈ calls, c.at_time ≤ T) →
      ∀ ts ∈ bucketOf (runPrepareCalls cfg verify pid calls st).2 pid, ts ≤ T := by
  intro calls
  induction calls with
  | nil =>
    intro st hst _ ts hts
    simp only [runPrepareCalls] at hts
    exact hst ts hts
  | cons c rest ih =>
    intro st hst hcalls ts hts
    simp only [runPrepareCalls] at hts
    refine ih (prepare_workflow cfg verify st pid c.workflow_type c.seed c.at_time
      c.fresh_id).2.1 ?_ (fun x hx => hcalls x (by simp [hx])) ts hts
    intro u hu
    have hbu : bucketOf (prepare_workflow cfg verify st pid c.workflow_type c.seed
        c.at_time c.fresh_id).2.1 pid = bucketOf (check_rate_limit cfg st pid c.at_time).2 pid := by
      unfold bucketOf
      rw [prepare_workflow_rate_limiter]
    rw [hbu] at hu
    by_cases hrl : (check_rate_limit cfg st pid c.at_time).1 = false
    · rw [bucketOf_check_rejected cfg st pid c.at_time hrl] at hu
      exact hst u (List.mem_filter.mp hu).1
    · have hrl' : (check_rate_limit cfg st pid c.at_time).1 = true := by
        simpa using hrl
      rw [bucketOf_check_admitted cfg st pid c.at_time hrl'] at hu
      rcases List.mem_append.mp hu with h | h
      · exact hst u (List.mem_filter.mp h).1
      · have : u = c.at_time := by simpa using h
        subst this
        exact hcalls c (by simp)

/-- C6: under the default cap of 10 per rolling minute, among any eleven
`prepare_workflow` calls for one project issued within a one-second
interval at least one is refused with RATE_LIMITED; and a call issued more
than 60 seconds after all earlier calls (from a fresh bucket) is never
rate-limited — as long as the verifier never emits RATE_LIMITED, which the
repository verifier does not. -/
theorem rate_limit_cap_enforced (cfg : OrchestratorConfig)
    (verify : String → String → Json → VerificationResult) (pid : String) (T : Int)
    (hcap : cfg.max_requests_per_minute = 10)
    (hverify : ∀ p w s, ErrorCode.RATE_LIMITED ∉ (verify p w s).codes) :
    (∀ calls st, calls.length = 11 →
       (∀ c ∈ calls, T ≤ c.at_time ∧ c.at_time ≤ T + 1000000) →
       ∃ r ∈ (runPrepareCalls cfg verify pid calls st).1, isRateLimited r) ∧
    (∀ calls st wt seed now fid,
       bucketOf st pid = [] →
       (∀ c ∈ calls, c.at_time ≤ T) →
       T + 60000000 < now →
       ¬ isRateLimited (prepare_workflow cfg verify
           (runPrepareCalls cfg verify pid calls st).2 pid wt seed now fid).1) := by
  constructor
  · intro calls st hlen hwin
    refine runPrepare_rejected_of_count cfg verify pid T hcap calls st hwin ?_ ?_
    · rw [hlen]
      omega
    · rw [hlen]
      omega
  · intro calls st wt seed now fid hempty hcallsT hnow
    have hb : ∀ ts ∈ bucketOf (runPrepareCalls cfg verify pid calls st).2 pid, ts ≤ T :=
      runPrepare_bucket_le cfg verify pid T calls st (by rw [hempty]; simp) hcallsT
    have hfil : (bucketOf (runPrepareCalls cfg verify pid calls st).2 pid).filter
        (fun ts => decide (now - 60000000 < ts)) = [] := by
      rw [List.filter_eq_nil]
      intro a ha
      have := hb a ha
      simp
      omega
    have hcheck : (check_rate_limit cfg (runPrepareCalls cfg verify pid calls st).2
        pid now).1 = true := by
      cases hc : (check_rate_limit cfg (runPrepareCalls cfg verify pid calls st).2 pid now).1 with
      | true => rfl
      | false =>
        exfalso
        have h10 := (check_rate_limit_false_iff cfg _ pid now).mp hc
        rw [hfil, hcap] at h10
        simp at h10
    exact prepare_not_rate_limited_of_admitted cfg verify _ pid wt seed now fid hverify hcheck

/-- Witness for C6: eleven fixture calls within one second from a fresh
orchestrator produce at least one RATE_LIMITED rejection. -/
theorem rate_limit_cap_enforced_witness :
    (∃ r ∈ (runPrepareCalls fxCfg fxVerifyReady "P" fxCalls11 fxSt0).1, isRateLimited r) ∧
      fxCalls11.length = 11 := by
  refine ⟨(rate_limit_cap_enforced fxCfg fxVerifyReady "P" 0 rfl ?_).1 fxCalls11 fxSt0
    (by decide) (by decide), by decide⟩
  intro p w s
  simp [fxVerifyReady]
